import Mathlib

/-!
# Verification of the decode orchestration core of `decode-example.c`

This file is a shallow embedding of the decoder example program
(`src/example/decode-example.c`): the `decode_frame` step routine, the
`init`/`shutdown` lifecycle and the `main` driver loop.

The external collaborators (the VPU decoder engine, the DMA buffer
allocator and the h.264 bitstream source) are not part of the repository
source; following the specification's collaborator contracts they are
modelled as oracle inputs:

* the bitstream source is a list of access-unit byte sizes (an empty list
  means the source is exhausted, mirroring `au_end_offset <=
  au_start_offset` after a read at end of file);
* the decoder engine is a finite list of `EngineStep` responses, one
  consumed per `imx_vpu_dec_decode` call, carrying the output-code
  bitmask and the data returned by the query calls of that step;
* allocation results (which may fail, i.e. return NULL) are Booleans
  carried by the oracle.

Every externally visible call the program makes is recorded as an
`Event`, so that theorems can speak about which calls happen and in
which order.  Machine integers (`unsigned int`) are modelled as `Nat`
with explicit reduction modulo `2 ^ 32` where the C program increments
or casts.  Runs are driven by finite oracle traces; a drain loop whose
engine trace is exhausted stops stepping (all proved properties are
safety properties over the emitted event trace).
-/

namespace DecodeExample

/-- Modulus of the C `unsigned int` values (`frame_id_counter` and the
pointer-to-integer casts of frame contexts). -/
def U32 : Nat := 2 ^ 32

/-- The four output-code bits of the bitmask that `decode_frame`
inspects (`IMX_VPU_DEC_OUTPUT_CODE_*`).  Other bits of the bitmask are
never read by the program, hence not modelled. -/
structure OutputCode where
  initial_info_available : Bool
  decoded_picture_available : Bool
  dropped : Bool
  eos : Bool
deriving DecidableEq

/-- `ImxVpuDecInitialInfo`, as read by the program. -/
structure InitialInfo where
  frame_width : Nat
  frame_height : Nat
  frame_rate_numerator : Nat
  frame_rate_denominator : Nat
  min_num_required_framebuffers : Nat
  interlacing : Nat
  width_height_ratio : Nat
  framebuffer_alignment : Nat
deriving DecidableEq

/-- `ImxVpuDecFramebufferSizes`, as produced by
`imx_vpu_dec_calc_framebuffer_sizes` (an engine query; its result is an
oracle input). -/
structure FramebufferSizes where
  aligned_frame_width : Nat
  aligned_frame_height : Nat
  y_stride : Nat
  cbcr_stride : Nat
  y_size : Nat
  cbcr_size : Nat
  mvcol_size : Nat
  total_size : Nat
deriving DecidableEq

/-- The part of `ImxVpuPicture` the program reads: the context pointer
(an integer smuggled through `void *`) and which framebuffer of the
registered pool the picture lives in. -/
structure Picture where
  context : Nat
  framebuffer_index : Nat
deriving DecidableEq

/-- `ImxVpuEncodedFrame` as filled in by `decode_frame`: presence and
size of the payload, presence and size of out-of-band codec data, and
the context value (`0` stands for the NULL context of drain-mode
submissions). -/
structure EncodedFrame where
  data_present : Bool
  data_size : Nat
  codec_data_present : Bool
  codec_data_size : Nat
  context : Nat
deriving DecidableEq

/-- The engine's response to one `imx_vpu_dec_decode` call, together
with the results of the query calls the program may make during that
step.  `decode_ret_ok` is the return code of `imx_vpu_dec_decode`
itself (the program never reads it).  `alloc_ok i` tells whether the
DMA allocation for framebuffer `i` succeeds if a pool is built during
this step. -/
structure EngineStep where
  output_code : OutputCode
  decode_ret_ok : Bool
  initial_info : InitialInfo
  calculated_sizes : FramebufferSizes
  picture : Picture
  dropped_context : Nat
  alloc_ok : Nat → Bool

/-- Engine response used when the oracle trace is exhausted: no flags
set, all queries answer zero. -/
def defaultEngineStep : EngineStep :=
  ⟨⟨false, false, false, false⟩, true, ⟨0, 0, 0, 0, 0, 0, 0, 0⟩,
    ⟨0, 0, 0, 0, 0, 0, 0, 0⟩, ⟨0, 0⟩, 0, fun _ => true⟩

/-- The `Retval` enum of the program: `RETVAL_OK`, `RETVAL_ERROR`,
`RETVAL_EOS`. -/
inductive Retval where
  | ok
  | error
  | eos
deriving DecidableEq

/-- Externally visible calls of the program, in program order. -/
inductive Event where
  | open_input_file (ok : Bool)
  | open_output_file (ok : Bool)
  | close_input_file
  | close_output_file
  | dec_load
  | get_bitstream_buffer_info
  | alloc_bitstream_buffer (ok : Bool)
  | dec_open (ok : Bool)
  | decode_call (frame : EncodedFrame)
  | get_initial_info (info : InitialInfo)
  | calc_framebuffer_sizes
  | alloc_framebuffer (index size alignment : Nat) (ok : Bool)
  | fill_framebuffer_params (index fb_context : Nat)
  | register_framebuffers (count : Nat)
  | get_decoded_picture (context fb_index : Nat)
  | map_buffer (fb_index : Nat)
  | write_output (num_bytes : Nat)
  | unmap_buffer (fb_index : Nat)
  | mark_framebuffer_displayed (fb_index : Nat)
  | get_dropped_frame_context (context : Nat)
  | enable_drain_mode (flag : Bool)
  | dec_close
  | free_framebuffers_array
  | dealloc_framebuffer (index : Nat)
  | free_dmabuffer_array
  | dealloc_bitstream_buffer
  | dec_unload
  | h264_cleanup
deriving DecidableEq

/-- The mutable fields of `AppData` relevant to the orchestration,
plus the engine-side drain flag (queried via
`imx_vpu_dec_is_drain_mode_enabled`) and the file-handle
null-checks used by `shutdown`. -/
structure AppData where
  frame_id_counter : Nat
  num_framebuffers : Nat
  fb_alloc_results : List Bool
  initial_info : InitialInfo
  calculated_sizes : FramebufferSizes
  drain : Bool
  fin_open : Bool
  fout_open : Bool

/-- Result of one `decode_frame` call: return value, updated state,
remaining bitstream source, remaining engine trace, emitted events. -/
structure StepResult where
  ret : Retval
  app : AppData
  src : List Nat
  engs : List EngineStep
  events : List Event

/-- State update of the `INITIAL_INFO_AVAILABLE` branch of
`decode_frame`: store the initial info and the calculated sizes, set
`num_framebuffers` to the engine's minimum, and record the allocation
results of the pool-build loop (note the C code never checks them). -/
def pool_update (app : AppData) (e : EngineStep) : AppData :=
  if e.output_code.initial_info_available then
    { app with
        initial_info := e.initial_info,
        calculated_sizes := e.calculated_sizes,
        num_framebuffers := e.initial_info.min_num_required_framebuffers,
        fb_alloc_results :=
          (List.range e.initial_info.min_num_required_framebuffers).map e.alloc_ok }
  else app

/-- Events of the `INITIAL_INFO_AVAILABLE` branch: query the initial
info, calculate the framebuffer sizes, then for each framebuffer
allocate a DMA buffer and fill its parameters (the framebuffer pool
context tags are `0x2000 + i`), and finally register the whole pool. -/
def pool_events (e : EngineStep) : List Event :=
  if e.output_code.initial_info_available then
    [Event.get_initial_info e.initial_info, Event.calc_framebuffer_sizes]
      ++ ((List.range e.initial_info.min_num_required_framebuffers).map (fun i =>
            [Event.alloc_framebuffer i e.calculated_sizes.total_size
                e.initial_info.framebuffer_alignment (e.alloc_ok i),
              Event.fill_framebuffer_params i (0x2000 + i)])).flatten
      ++ [Event.register_framebuffers e.initial_info.min_num_required_framebuffers]
  else []

/-- Events of the picture/drop part of `decode_frame`: the
`DECODED_PICTURE_AVAILABLE` branch fetches the picture, maps, dumps and
unmaps its buffer and marks the framebuffer displayed; otherwise (note
the `else if` in the C code) the `DROPPED` branch retrieves the dropped
frame's context.  `sizes` is `app_data->calculated_sizes` as of this
step, used for the output byte count. -/
def picdrop_events (e : EngineStep) (sizes : FramebufferSizes) : List Event :=
  if e.output_code.decoded_picture_available then
    [Event.get_decoded_picture e.picture.context e.picture.framebuffer_index,
      Event.map_buffer e.picture.framebuffer_index,
      Event.write_output (sizes.y_size + sizes.cbcr_size * 2),
      Event.unmap_buffer e.picture.framebuffer_index,
      Event.mark_framebuffer_displayed e.picture.framebuffer_index]
  else if e.output_code.dropped then
    [Event.get_dropped_frame_context (e.dropped_context % U32)]
  else []

/-- `app_data->frame_id_counter++` (an `unsigned int`). -/
def bump_counter (app : AppData) : AppData :=
  { app with frame_id_counter := (app.frame_id_counter + 1) % U32 }

/-- The part of `decode_frame` from the `imx_vpu_dec_decode` call on:
consume one engine response, run the three output-code branches, set
`ok = 0` on `EOS`, increment the frame id counter, and return
`ok ? RETVAL_OK : RETVAL_EOS`. -/
def decode_core (app : AppData) (src : List Nat) (engs : List EngineStep)
    (frame : EncodedFrame) (ok0 : Bool) : StepResult :=
  let e := engs.headD defaultEngineStep
  let app1 := pool_update app e
  ⟨(if e.output_code.eos then Retval.eos else if ok0 then Retval.ok else Retval.eos),
    bump_counter app1, src, engs.tail,
    Event.decode_call frame :: (pool_events e ++ picdrop_events e app1.calculated_sizes)⟩

/-- The frame submitted in drain mode: no payload, no codec data, NULL
context. -/
def drain_frame : EncodedFrame := ⟨false, 0, false, 0, 0⟩

/-- The `decode_frame` function.  In drain mode it submits an empty
frame with a NULL context; otherwise it reads the next access unit
(returning `RETVAL_EOS` before touching the engine if the source is
exhausted) and submits it with the current `frame_id_counter` as its
context. -/
def decode_frame (app : AppData) (src : List Nat) (engs : List EngineStep) : StepResult :=
  if app.drain then
    decode_core app src engs drain_frame true
  else
    match src with
    | [] => ⟨Retval.eos, app, [], engs, []⟩
    | sz :: rest =>
      if sz = 0 then ⟨Retval.eos, app, rest, engs, []⟩
      else decode_core app rest engs ⟨true, sz, false, 0, app.frame_id_counter⟩ true

/-- The command-line/file/engine-open outcomes that drive `init`. -/
structure InitInputs where
  args_ok : Bool
  fin_ok : Bool
  fout_ok : Bool
  bitstream_alloc_ok : Bool
  dec_open_ok : Bool
deriving DecidableEq

/-- Return value of `init`: `RETVAL_ERROR` exactly when argument
parsing or one of the two `fopen` calls fails.  The results of
`imx_vpu_dma_buffer_allocate` (bitstream buffer) and
`imx_vpu_dec_open` are not checked by the C code. -/
def init_ret (ii : InitInputs) : Retval :=
  if ii.args_ok && ii.fin_ok && ii.fout_ok then Retval.ok else Retval.error

/-- Events emitted by `init`, including its early-error paths. -/
def init_events (ii : InitInputs) : List Event :=
  if ii.args_ok = false then []
  else if ii.fin_ok = false then [Event.open_input_file false]
  else if ii.fout_ok = false then
    [Event.open_input_file true, Event.open_output_file false, Event.close_input_file]
  else
    [Event.open_input_file true, Event.open_output_file true, Event.dec_load,
      Event.get_bitstream_buffer_info, Event.alloc_bitstream_buffer ii.bitstream_alloc_ok,
      Event.dec_open ii.dec_open_ok]

/-- `AppData` after a successful `init` (`main` zero-fills the struct,
`init` then sets `frame_id_counter = 100` and opens both files). -/
def initialApp : AppData :=
  ⟨100, 0, [], ⟨0, 0, 0, 0, 0, 0, 0, 0⟩, ⟨0, 0, 0, 0, 0, 0, 0, 0⟩, false, true, true⟩

/-- `InitInputs` of a run in which every fallible startup call
succeeds. -/
def okInit : InitInputs := ⟨true, true, true, true, true⟩

/-- Engine response signalling only `EOS`. -/
def eosStep : EngineStep :=
  { defaultEngineStep with output_code := ⟨false, false, false, true⟩ }

/-- Engine response with both `DECODED_PICTURE_AVAILABLE` and `DROPPED`
set in the same bitmask. -/
def dropPicStep : EngineStep :=
  { defaultEngineStep with
      output_code := ⟨false, true, true, false⟩, picture := ⟨100, 0⟩,
      dropped_context := 100 }

/-- Engine response with only the `DROPPED` flag set. -/
def dropOnlyStep : EngineStep :=
  { defaultEngineStep with
      output_code := ⟨false, false, true, false⟩, dropped_context := 100 }

/-- Engine response with `INITIAL_INFO_AVAILABLE` demanding five
framebuffers, where the DMA allocation of the third one (index 2)
fails. -/
def infoFailStep : EngineStep :=
  { defaultEngineStep with
      output_code := ⟨true, false, false, false⟩,
      initial_info := ⟨640, 480, 30, 1, 5, 0, 65536, 16⟩,
      calculated_sizes := ⟨640, 480, 640, 320, 307200, 76800, 0, 1000⟩,
      alloc_ok := fun i => !(i == 2) }

/-- Engine response with `INITIAL_INFO_AVAILABLE` demanding two
framebuffers, all allocations succeeding. -/
def infoOkStep : EngineStep :=
  { defaultEngineStep with
      output_code := ⟨true, false, false, false⟩,
      initial_info := ⟨640, 480, 30, 1, 2, 0, 65536, 16⟩,
      calculated_sizes := ⟨640, 480, 640, 320, 307200, 76800, 0, 1000⟩ }

/-- Engine response with a recurring `INITIAL_INFO_AVAILABLE` (e.g. a
resolution change) demanding one framebuffer. -/
def infoMin1Step : EngineStep :=
  { defaultEngineStep with
      output_code := ⟨true, false, false, false⟩,
      initial_info := ⟨320, 240, 30, 1, 1, 0, 65536, 16⟩,
      calculated_sizes := ⟨320, 240, 320, 160, 76800, 19200, 0, 500⟩ }

/-- Engine response delivering a decoded picture from framebuffer 0
with context 100. -/
def picStep : EngineStep :=
  { defaultEngineStep with
      output_code := ⟨false, true, false, false⟩, picture := ⟨100, 0⟩ }

/-- The session state after `init` with drain mode already enabled. -/
def drainApp : AppData := { initialApp with drain := true }

/-- Events emitted by `shutdown`: close the decoder, free the
framebuffer array, deallocate each framebuffer DMA buffer, free the
DMA-buffer pointer array, deallocate the bitstream buffer, unload the
decoder, clean up the h.264 context, and close the two files (guarded
by their NULL checks). -/
def shutdown (app : AppData) : List Event :=
  [Event.dec_close, Event.free_framebuffers_array]
    ++ (List.range app.num_framebuffers).map Event.dealloc_framebuffer
    ++ [Event.free_dmabuffer_array, Event.dealloc_bitstream_buffer, Event.dec_unload,
        Event.h264_cleanup]
    ++ (if app.fout_open then [Event.close_output_file] else [])
    ++ (if app.fin_open then [Event.close_input_file] else [])

/-- Combine one loop iteration's step result with the result of the
remaining iterations: the loop's overall outcome is that of the
remaining iterations, with this iteration's events prepended. -/
def loop_step_merge (r r2 : StepResult) : StepResult :=
  ⟨r2.ret, r2.app, r2.src, r2.engs, r.events ++ r2.events⟩

/-- The first `for (;;)` loop of `main`: run `decode_frame` until it
returns something other than `RETVAL_OK` (`RETVAL_EOS` breaks out
normally, `RETVAL_ERROR` is handled by `main`).  The loop is driven by
the bitstream source; in `main` this loop only ever runs with drain
mode off, in which state each iteration consumes exactly the head of
the source. -/
def run_loop1 : AppData → List Nat → List EngineStep → StepResult
  | app, [], engs => ⟨Retval.eos, app, [], engs, []⟩
  | app, sz :: rest, engs =>
    if (decode_frame app (sz :: rest) engs).ret = Retval.ok then
      loop_step_merge (decode_frame app (sz :: rest) engs)
        (run_loop1 (decode_frame app (sz :: rest) engs).app rest
          (decode_frame app (sz :: rest) engs).engs)
    else
      decode_frame app (sz :: rest) engs

/-- The second `for (;;)` loop of `main` (drain mode): run
`decode_frame` until it returns something other than `RETVAL_OK`, or
until the finite engine trace is exhausted. -/
def run_loop2 : AppData → List Nat → List EngineStep → StepResult
  | app, src, [] => ⟨Retval.eos, app, src, [], []⟩
  | app, src, e :: rest =>
    if (decode_frame app src (e :: rest)).ret = Retval.ok then
      loop_step_merge (decode_frame app src (e :: rest))
        (run_loop2 (decode_frame app src (e :: rest)).app
          (decode_frame app src (e :: rest)).src rest)
    else
      decode_frame app src (e :: rest)

/-- Effect of `imx_vpu_dec_enable_drain_mode(vpudec, 1)` on the
engine-side state. -/
def set_drain (app : AppData) : AppData := { app with drain := true }

/-- The `main` function: `init` (exit code 1 on `RETVAL_ERROR`), the
regular decode loop, `imx_vpu_dec_enable_drain_mode(vpudec, 1)`, the
drain loop, and `shutdown`.  Each `RETVAL_ERROR` loop exit runs
`shutdown` and exits 1; the normal path returns `shutdown`'s
`RETVAL_OK`, i.e. exit code 0.  The result is the exit code and the
full event trace of the process. -/
def mainRun (ii : InitInputs) (src : List Nat) (engs : List EngineStep) :
    Nat × List Event :=
  if init_ret ii = Retval.error then
    (1, init_events ii)
  else
    if (run_loop1 initialApp src engs).ret = Retval.error then
      (1, init_events ii ++ (run_loop1 initialApp src engs).events
            ++ shutdown (run_loop1 initialApp src engs).app)
    else
      if (run_loop2 (set_drain (run_loop1 initialApp src engs).app)
            (run_loop1 initialApp src engs).src
            (run_loop1 initialApp src engs).engs).ret = Retval.error then
        (1, init_events ii ++ (run_loop1 initialApp src engs).events
              ++ [Event.enable_drain_mode true]
              ++ (run_loop2 (set_drain (run_loop1 initialApp src engs).app)
                    (run_loop1 initialApp src engs).src
                    (run_loop1 initialApp src engs).engs).events
              ++ shutdown (run_loop2 (set_drain (run_loop1 initialApp src engs).app)
                    (run_loop1 initialApp src engs).src
                    (run_loop1 initialApp src engs).engs).app)
      else
        (0, init_events ii ++ (run_loop1 initialApp src engs).events
              ++ [Event.enable_drain_mode true]
              ++ (run_loop2 (set_drain (run_loop1 initialApp src engs).app)
                    (run_loop1 initialApp src engs).src
                    (run_loop1 initialApp src engs).engs).events
              ++ shutdown (run_loop2 (set_drain (run_loop1 initialApp src engs).app)
                    (run_loop1 initialApp src engs).src
                    (run_loop1 initialApp src engs).engs).app)

/-- Whether `decode_frame` reaches the `imx_vpu_dec_decode` call (it
does unless drain mode is off and the source yields no access unit). -/
def makes_decode_call (app : AppData) (src : List Nat) : Bool :=
  if app.drain then true
  else
    match src with
    | [] => false
    | sz :: _ => !(sz == 0)

/-- Recognizer: `imx_vpu_dec_get_dropped_frame_context` call. -/
def is_dropped_ctx_event : Event → Bool
  | Event.get_dropped_frame_context _ => true
  | _ => false

/-- Recognizer: `imx_vpu_dec_get_decoded_picture` call. -/
def is_fetch_event : Event → Bool
  | Event.get_decoded_picture _ _ => true
  | _ => false

/-- Recognizer: `imx_vpu_dec_mark_framebuffer_as_displayed` call. -/
def is_mark_event : Event → Bool
  | Event.mark_framebuffer_displayed _ => true
  | _ => false

/-- Recognizer: `imx_vpu_dec_close` call. -/
def is_close_event : Event → Bool
  | Event.dec_close => true
  | _ => false

/-- Recognizer: any teardown call of `shutdown` (decoder close,
framebuffer/bitstream deallocation, array frees, decoder unload). -/
def is_teardown_event : Event → Bool
  | Event.dec_close => true
  | Event.free_framebuffers_array => true
  | Event.dealloc_framebuffer _ => true
  | Event.free_dmabuffer_array => true
  | Event.dealloc_bitstream_buffer => true
  | Event.dec_unload => true
  | _ => false

/-- Recognizer: the `imx_vpu_dec_enable_drain_mode` call. -/
def is_enable_event : Event → Bool
  | Event.enable_drain_mode _ => true
  | _ => false

/-- Recognizer: any call of the pool-build branch (initial-info query,
size calculation, framebuffer allocation, parameter fill,
registration). -/
def is_pool_event : Event → Bool
  | Event.get_initial_info _ => true
  | Event.calc_framebuffer_sizes => true
  | Event.alloc_framebuffer _ _ _ _ => true
  | Event.fill_framebuffer_params _ _ => true
  | Event.register_framebuffers _ => true
  | _ => false

/-- Recognizer: deallocation of the framebuffer DMA buffer with the
given pool index. -/
def is_dealloc_at (i : Nat) : Event → Bool
  | Event.dealloc_framebuffer j => j == i
  | _ => false

/-- The indices of the framebuffer DMA allocations occurring in a
trace, in order. -/
def alloc_indices (tr : List Event) : List Nat :=
  tr.filterMap (fun ev =>
    match ev with
    | Event.alloc_framebuffer i _ _ _ => some i
    | _ => none)

/-- The context values of the submitted encoded frames that carry
payload data (i.e. the non-drain submissions), in order. -/
def submitted_data_contexts (tr : List Event) : List Nat :=
  tr.filterMap (fun ev =>
    match ev with
    | Event.decode_call f => if f.data_present then some f.context else none
    | _ => none)

/-- Number of engine responses in a trace whose output code has the
`INITIAL_INFO_AVAILABLE` bit set. -/
def info_count (engs : List EngineStep) : Nat :=
  engs.countP (fun e => e.output_code.initial_info_available)

/-- Number of engine responses in a trace whose output code has the
`DECODED_PICTURE_AVAILABLE` bit set. -/
def pic_count (engs : List EngineStep) : Nat :=
  engs.countP (fun e => e.output_code.decoded_picture_available)

/-! ## Projection lemmas for one decode step -/

lemma decode_core_ret (app : AppData) (src : List Nat) (engs : List EngineStep)
    (f : EncodedFrame) (ok0 : Bool) :
    (decode_core app src engs f ok0).ret =
      (if (engs.headD defaultEngineStep).output_code.eos then Retval.eos
       else if ok0 then Retval.ok else Retval.eos) := rfl

lemma decode_core_app (app : AppData) (src : List Nat) (engs : List EngineStep)
    (f : EncodedFrame) (ok0 : Bool) :
    (decode_core app src engs f ok0).app =
      bump_counter (pool_update app (engs.headD defaultEngineStep)) := rfl

lemma decode_core_src (app : AppData) (src : List Nat) (engs : List EngineStep)
    (f : EncodedFrame) (ok0 : Bool) :
    (decode_core app src engs f ok0).src = src := rfl

lemma decode_core_engs (app : AppData) (src : List Nat) (engs : List EngineStep)
    (f : EncodedFrame) (ok0 : Bool) :
    (decode_core app src engs f ok0).engs = engs.tail := rfl

lemma decode_core_events (app : AppData) (src : List Nat) (engs : List EngineStep)
    (f : EncodedFrame) (ok0 : Bool) :
    (decode_core app src engs f ok0).events =
      Event.decode_call f ::
        (pool_events (engs.headD defaultEngineStep) ++
          picdrop_events (engs.headD defaultEngineStep)
            (pool_update app (engs.headD defaultEngineStep)).calculated_sizes) := rfl

/-- Complete case analysis of `decode_frame`: drain-mode submission,
early end-of-input return (empty source or empty access unit), or a
regular submission carrying the current frame id as context. -/
lemma decode_frame_cases (app : AppData) (src : List Nat) (engs : List EngineStep) :
    (app.drain = true ∧ decode_frame app src engs = decode_core app src engs drain_frame true) ∨
    (app.drain = false ∧ src = [] ∧
      decode_frame app src engs = ⟨Retval.eos, app, [], engs, []⟩) ∨
    (∃ rest, app.drain = false ∧ src = 0 :: rest ∧
      decode_frame app src engs = ⟨Retval.eos, app, rest, engs, []⟩) ∨
    (∃ sz rest, app.drain = false ∧ src = sz :: rest ∧ sz ≠ 0 ∧
      decode_frame app src engs =
        decode_core app rest engs ⟨true, sz, false, 0, app.frame_id_counter⟩ true) := by
  by_cases hd : app.drain = true
  · exact Or.inl ⟨hd, by simp [decode_frame, hd]⟩
  · have hd' : app.drain = false := by
      cases h : app.drain
      · rfl
      · exact absurd h hd
    rcases src with _ | ⟨sz, rest⟩
    · exact Or.inr (Or.inl ⟨hd', rfl, by simp [decode_frame, hd']⟩)
    · by_cases hz : sz = 0
      · subst hz
        exact Or.inr (Or.inr (Or.inl ⟨rest, hd', rfl, by simp [decode_frame, hd']⟩))
      · exact Or.inr (Or.inr (Or.inr ⟨sz, rest, hd', rfl, hz, by simp [decode_frame, hd', hz]⟩))

/-! ## Field preservation -/

lemma pool_update_drain (app : AppData) (e : EngineStep) :
    (pool_update app e).drain = app.drain := by
  unfold pool_update; split <;> rfl

lemma pool_update_fin (app : AppData) (e : EngineStep) :
    (pool_update app e).fin_open = app.fin_open := by
  unfold pool_update; split <;> rfl

lemma pool_update_fout (app : AppData) (e : EngineStep) :
    (pool_update app e).fout_open = app.fout_open := by
  unfold pool_update; split <;> rfl

lemma pool_update_counter (app : AppData) (e : EngineStep) :
    (pool_update app e).frame_id_counter = app.frame_id_counter := by
  unfold pool_update; split <;> rfl

lemma pool_update_num (app : AppData) (e : EngineStep) :
    (pool_update app e).num_framebuffers =
      (if (e.output_code.initial_info_available) then
        e.initial_info.min_num_required_framebuffers
       else app.num_framebuffers) := by
  unfold pool_update; split <;> rfl

lemma bump_counter_drain (app : AppData) : (bump_counter app).drain = app.drain := rfl

lemma bump_counter_fin (app : AppData) : (bump_counter app).fin_open = app.fin_open := rfl

lemma bump_counter_fout (app : AppData) : (bump_counter app).fout_open = app.fout_open := rfl

lemma bump_counter_num (app : AppData) :
    (bump_counter app).num_framebuffers = app.num_framebuffers := rfl

lemma decode_frame_drain (app : AppData) (src : List Nat) (engs : List EngineStep) :
    (decode_frame app src engs).app.drain = app.drain := by
  rcases decode_frame_cases app src engs with ⟨_, h⟩ | ⟨_, _, h⟩ | ⟨rest, _, _, h⟩ |
    ⟨sz, rest, _, _, _, h⟩ <;>
    rw [h] <;>
    simp [decode_core_app, bump_counter_drain, pool_update_drain]

lemma decode_frame_fin (app : AppData) (src : List Nat) (engs : List EngineStep) :
    (decode_frame app src engs).app.fin_open = app.fin_open := by
  rcases decode_frame_cases app src engs with ⟨_, h⟩ | ⟨_, _, h⟩ | ⟨rest, _, _, h⟩ |
    ⟨sz, rest, _, _, _, h⟩ <;>
    rw [h] <;>
    simp [decode_core_app, bump_counter_fin, pool_update_fin]

lemma decode_frame_fout (app : AppData) (src : List Nat) (engs : List EngineStep) :
    (decode_frame app src engs).app.fout_open = app.fout_open := by
  rcases decode_frame_cases app src engs with ⟨_, h⟩ | ⟨_, _, h⟩ | ⟨rest, _, _, h⟩ |
    ⟨sz, rest, _, _, _, h⟩ <;>
    rw [h] <;>
    simp [decode_core_app, bump_counter_fout, pool_update_fout]

/-! ## Shapes of the per-branch event lists -/

lemma mem_pool_events {e : EngineStep} {ev : Event} (h : ev ∈ pool_events e) :
    (∃ i, ev = Event.get_initial_info i) ∨ ev = Event.calc_framebuffer_sizes ∨
    (∃ i s a b, ev = Event.alloc_framebuffer i s a b) ∨
    (∃ i c, ev = Event.fill_framebuffer_params i c) ∨
    (∃ n, ev = Event.register_framebuffers n) := by
  unfold pool_events at h
  split at h
  · rcases List.mem_append.mp h with h1 | h1
    · rcases List.mem_append.mp h1 with h2 | h2
      · simp only [List.mem_cons, List.not_mem_nil, or_false] at h2
        rcases h2 with rfl | rfl
        · exact Or.inl ⟨_, rfl⟩
        · exact Or.inr (Or.inl rfl)
      · rw [List.mem_flatten] at h2
        obtain ⟨l, hl, hev⟩ := h2
        rw [List.mem_map] at hl
        obtain ⟨i, _, rfl⟩ := hl
        simp only [List.mem_cons, List.not_mem_nil, or_false] at hev
        rcases hev with rfl | rfl
        · exact Or.inr (Or.inr (Or.inl ⟨_, _, _, _, rfl⟩))
        · exact Or.inr (Or.inr (Or.inr (Or.inl ⟨_, _, rfl⟩)))
    · simp only [List.mem_singleton] at h1
      subst h1
      exact Or.inr (Or.inr (Or.inr (Or.inr ⟨_, rfl⟩)))
  · cases h

lemma mem_picdrop_events {e : EngineStep} {s : FramebufferSizes} {ev : Event}
    (h : ev ∈ picdrop_events e s) :
    (∃ c i, ev = Event.get_decoded_picture c i) ∨ (∃ i, ev = Event.map_buffer i) ∨
    (∃ n, ev = Event.write_output n) ∨ (∃ i, ev = Event.unmap_buffer i) ∨
    (∃ i, ev = Event.mark_framebuffer_displayed i) ∨
    (∃ c, ev = Event.get_dropped_frame_context c) := by
  unfold picdrop_events at h
  split at h
  · simp only [List.mem_cons, List.not_mem_nil, or_false] at h
    rcases h with rfl | rfl | rfl | rfl | rfl
    · exact Or.inl ⟨_, _, rfl⟩
    · exact Or.inr (Or.inl ⟨_, rfl⟩)
    · exact Or.inr (Or.inr (Or.inl ⟨_, rfl⟩))
    · exact Or.inr (Or.inr (Or.inr (Or.inl ⟨_, rfl⟩)))
    · exact Or.inr (Or.inr (Or.inr (Or.inr (Or.inl ⟨_, rfl⟩))))
  · split at h
    · simp only [List.mem_cons, List.not_mem_nil, or_false] at h
      subst h
      exact Or.inr (Or.inr (Or.inr (Or.inr (Or.inr ⟨_, rfl⟩))))
    · cases h

/-! ## Derived counting facts about the per-branch event lists -/

lemma submitted_data_contexts_pool (e : EngineStep) :
    submitted_data_contexts (pool_events e) = [] := by
  unfold submitted_data_contexts
  rw [List.filterMap_eq_nil_iff]
  intro a ha
  rcases mem_pool_events ha with ⟨i, rfl⟩ | rfl | ⟨i, s, al, b, rfl⟩ | ⟨i, c, rfl⟩ |
    ⟨n, rfl⟩ <;> rfl

lemma submitted_data_contexts_picdrop (e : EngineStep) (s : FramebufferSizes) :
    submitted_data_contexts (picdrop_events e s) = [] := by
  unfold submitted_data_contexts
  rw [List.filterMap_eq_nil_iff]
  intro a ha
  rcases mem_picdrop_events ha with ⟨c, i, rfl⟩ | ⟨i, rfl⟩ | ⟨n, rfl⟩ | ⟨i, rfl⟩ |
    ⟨i, rfl⟩ | ⟨c, rfl⟩ <;> rfl

lemma submitted_data_contexts_append (a b : List Event) :
    submitted_data_contexts (a ++ b) =
      submitted_data_contexts a ++ submitted_data_contexts b := by
  unfold submitted_data_contexts
  exact List.filterMap_append a b _

lemma submitted_data_contexts_cons_call (f : EncodedFrame) (tr : List Event) :
    submitted_data_contexts (Event.decode_call f :: tr) =
      (if f.data_present then f.context :: submitted_data_contexts tr
       else submitted_data_contexts tr) := by
  unfold submitted_data_contexts
  cases hf : f.data_present <;> simp [List.filterMap_cons, hf]

lemma alloc_indices_append (a b : List Event) :
    alloc_indices (a ++ b) = alloc_indices a ++ alloc_indices b := by
  unfold alloc_indices
  exact List.filterMap_append a b _

lemma alloc_indices_flatten_pairs (l : List Nat) (s al : Nat) (ok : Nat → Bool) :
    alloc_indices ((l.map (fun i =>
      [Event.alloc_framebuffer i s al (ok i),
        Event.fill_framebuffer_params i (0x2000 + i)])).flatten) = l := by
  induction l with
  | nil => rfl
  | cons hd t ih =>
    rw [List.map_cons, List.flatten_cons, alloc_indices_append, ih]
    rfl

lemma alloc_indices_pool (e : EngineStep) :
    alloc_indices (pool_events e) =
      (if e.output_code.initial_info_available then
        List.range e.initial_info.min_num_required_framebuffers
       else []) := by
  unfold pool_events
  split
  · rw [alloc_indices_append, alloc_indices_append, alloc_indices_flatten_pairs]
    simp [alloc_indices]
  · rfl

lemma alloc_indices_picdrop (e : EngineStep) (s : FramebufferSizes) :
    alloc_indices (picdrop_events e s) = [] := by
  unfold picdrop_events
  split
  · rfl
  · split <;> rfl

/-- If a trace has no pool-branch events, it allocates no
framebuffers. -/
lemma alloc_indices_eq_nil_of_no_pool {tr : List Event}
    (h : tr.countP is_pool_event = 0) : alloc_indices tr = [] := by
  unfold alloc_indices
  rw [List.filterMap_eq_nil_iff]
  intro a ha
  have := (List.countP_eq_zero.mp h) a ha
  cases a <;> first | rfl | exact absurd rfl this

lemma countP_pool_events_zero (e : EngineStep) (p : Event → Bool)
    (h1 : ∀ i, p (Event.get_initial_info i) = false)
    (h2 : p Event.calc_framebuffer_sizes = false)
    (h3 : ∀ i s a b, p (Event.alloc_framebuffer i s a b) = false)
    (h4 : ∀ i c, p (Event.fill_framebuffer_params i c) = false)
    (h5 : ∀ n, p (Event.register_framebuffers n) = false) :
    (pool_events e).countP p = 0 := by
  rw [List.countP_eq_zero]
  intro a ha
  rcases mem_pool_events ha with ⟨i, rfl⟩ | rfl | ⟨i, s, al, b, rfl⟩ | ⟨i, c, rfl⟩ |
    ⟨n, rfl⟩ <;> simp [h1, h2, h3, h4, h5]

lemma countP_picdrop_events_zero (e : EngineStep) (s : FramebufferSizes) (p : Event → Bool)
    (h1 : ∀ c i, p (Event.get_decoded_picture c i) = false)
    (h2 : ∀ i, p (Event.map_buffer i) = false)
    (h3 : ∀ n, p (Event.write_output n) = false)
    (h4 : ∀ i, p (Event.unmap_buffer i) = false)
    (h5 : ∀ i, p (Event.mark_framebuffer_displayed i) = false)
    (h6 : ∀ c, p (Event.get_dropped_frame_context c) = false) :
    (picdrop_events e s).countP p = 0 := by
  rw [List.countP_eq_zero]
  intro a ha
  rcases mem_picdrop_events ha with ⟨c, i, rfl⟩ | ⟨i, rfl⟩ | ⟨n, rfl⟩ | ⟨i, rfl⟩ |
    ⟨i, rfl⟩ | ⟨c, rfl⟩ <;> simp [h1, h2, h3, h4, h5, h6]

lemma pool_no_teardown (e : EngineStep) :
    (pool_events e).countP is_teardown_event = 0 :=
  countP_pool_events_zero e _ (fun _ => rfl) rfl (fun _ _ _ _ => rfl) (fun _ _ => rfl)
    (fun _ => rfl)

lemma pool_no_fetch (e : EngineStep) : (pool_events e).countP is_fetch_event = 0 :=
  countP_pool_events_zero e _ (fun _ => rfl) rfl (fun _ _ _ _ => rfl) (fun _ _ => rfl)
    (fun _ => rfl)

lemma pool_no_mark (e : EngineStep) : (pool_events e).countP is_mark_event = 0 :=
  countP_pool_events_zero e _ (fun _ => rfl) rfl (fun _ _ _ _ => rfl) (fun _ _ => rfl)
    (fun _ => rfl)

lemma pool_no_dropped (e : EngineStep) :
    (pool_events e).countP is_dropped_ctx_event = 0 :=
  countP_pool_events_zero e _ (fun _ => rfl) rfl (fun _ _ _ _ => rfl) (fun _ _ => rfl)
    (fun _ => rfl)

lemma pool_no_enable (e : EngineStep) : (pool_events e).countP is_enable_event = 0 :=
  countP_pool_events_zero e _ (fun _ => rfl) rfl (fun _ _ _ _ => rfl) (fun _ _ => rfl)
    (fun _ => rfl)

lemma picdrop_no_teardown (e : EngineStep) (s : FramebufferSizes) :
    (picdrop_events e s).countP is_teardown_event = 0 :=
  countP_picdrop_events_zero e s _ (fun _ _ => rfl) (fun _ => rfl) (fun _ => rfl)
    (fun _ => rfl) (fun _ => rfl) (fun _ => rfl)

lemma picdrop_no_pool (e : EngineStep) (s : FramebufferSizes) :
    (picdrop_events e s).countP is_pool_event = 0 :=
  countP_picdrop_events_zero e s _ (fun _ _ => rfl) (fun _ => rfl) (fun _ => rfl)
    (fun _ => rfl) (fun _ => rfl) (fun _ => rfl)

lemma picdrop_no_enable (e : EngineStep) (s : FramebufferSizes) :
    (picdrop_events e s).countP is_enable_event = 0 :=
  countP_picdrop_events_zero e s _ (fun _ _ => rfl) (fun _ => rfl) (fun _ => rfl)
    (fun _ => rfl) (fun _ => rfl) (fun _ => rfl)

lemma picdrop_fetch (e : EngineStep) (s : FramebufferSizes) :
    (picdrop_events e s).countP is_fetch_event =
      (if e.output_code.decoded_picture_available then 1 else 0) := by
  unfold picdrop_events
  split
  · rfl
  · split <;> rfl

lemma picdrop_mark (e : EngineStep) (s : FramebufferSizes) :
    (picdrop_events e s).countP is_mark_event =
      (if e.output_code.decoded_picture_available then 1 else 0) := by
  unfold picdrop_events
  split
  · rfl
  · split <;> rfl

lemma picdrop_dropped (e : EngineStep) (s : FramebufferSizes) :
    (picdrop_events e s).countP is_dropped_ctx_event =
      (if e.output_code.decoded_picture_available then 0
       else if e.output_code.dropped then 1 else 0) := by
  unfold picdrop_events
  split
  · rfl
  · split <;> rfl

/-! ## Step-level characterizations -/

lemma bump_counter_counter (app : AppData) :
    (bump_counter app).frame_id_counter = (app.frame_id_counter + 1) % U32 := rfl

/-- `decode_frame` returns `RETVAL_EOS` when no access unit is read or
the engine signals `EOS`, and `RETVAL_OK` otherwise; in particular it
never returns `RETVAL_ERROR`, whatever the engine reports. -/
lemma decode_frame_ret (app : AppData) (src : List Nat) (engs : List EngineStep) :
    (decode_frame app src engs).ret =
      (if makes_decode_call app src then
        (if (engs.headD defaultEngineStep).output_code.eos then Retval.eos else Retval.ok)
       else Retval.eos) := by
  rcases decode_frame_cases app src engs with ⟨hd, h⟩ | ⟨hd, hsrc, h⟩ |
    ⟨rest, hd, hsrc, h⟩ | ⟨sz, rest, hd, hsrc, hz, h⟩ <;> rw [h]
  · simp [decode_core_ret, makes_decode_call, hd]
  · subst hsrc; simp [makes_decode_call, hd]
  · subst hsrc; simp [makes_decode_call, hd]
  · subst hsrc; simp [decode_core_ret, makes_decode_call, hd, hz]

/-- The frame id counter is incremented (mod `2^32`) exactly when the
step reaches the `imx_vpu_dec_decode` call — including drain-mode
steps — and is unchanged otherwise. -/
lemma decode_frame_counter (app : AppData) (src : List Nat) (engs : List EngineStep) :
    (decode_frame app src engs).app.frame_id_counter =
      (if makes_decode_call app src then (app.frame_id_counter + 1) % U32
       else app.frame_id_counter) := by
  rcases decode_frame_cases app src engs with ⟨hd, h⟩ | ⟨hd, hsrc, h⟩ |
    ⟨rest, hd, hsrc, h⟩ | ⟨sz, rest, hd, hsrc, hz, h⟩ <;> rw [h]
  · simp [decode_core_app, bump_counter_counter, pool_update_counter,
      makes_decode_call, hd]
  · subst hsrc; simp [makes_decode_call, hd]
  · subst hsrc; simp [makes_decode_call, hd]
  · subst hsrc
    simp [decode_core_app, bump_counter_counter, pool_update_counter,
      makes_decode_call, hd, hz]

lemma decode_frame_ret_cases (app : AppData) (src : List Nat) (engs : List EngineStep) :
    (decode_frame app src engs).ret = Retval.ok ∨
    (decode_frame app src engs).ret = Retval.eos := by
  rw [decode_frame_ret]
  split
  · split
    · exact Or.inr rfl
    · exact Or.inl rfl
  · exact Or.inr rfl

/-- One decode step consumes a prefix (of length 0 or 1) of the engine
trace. -/
lemma decode_frame_engs_split (app : AppData) (src : List Nat) (engs : List EngineStep) :
    ∃ used, engs = used ++ (decode_frame app src engs).engs := by
  rcases decode_frame_cases app src engs with ⟨_, h⟩ | ⟨_, _, h⟩ | ⟨rest, _, _, h⟩ |
    ⟨sz, rest, _, _, _, h⟩ <;> rw [h]
  · rcases engs with _ | ⟨e, t⟩
    · exact ⟨[], rfl⟩
    · exact ⟨[e], rfl⟩
  · exact ⟨[], rfl⟩
  · exact ⟨[], rfl⟩
  · rcases engs with _ | ⟨e, t⟩
    · exact ⟨[], rfl⟩
    · exact ⟨[e], rfl⟩

/-! ## Unfolding equations for the two driver loops -/

lemma loop_step_merge_ret (r r2 : StepResult) : (loop_step_merge r r2).ret = r2.ret := rfl

lemma loop_step_merge_app (r r2 : StepResult) : (loop_step_merge r r2).app = r2.app := rfl

lemma loop_step_merge_src (r r2 : StepResult) : (loop_step_merge r r2).src = r2.src := rfl

lemma loop_step_merge_engs (r r2 : StepResult) :
    (loop_step_merge r r2).engs = r2.engs := rfl

lemma loop_step_merge_events (r r2 : StepResult) :
    (loop_step_merge r r2).events = r.events ++ r2.events := rfl

lemma run_loop1_cons_ok (app : AppData) (sz : Nat) (rest : List Nat)
    (engs : List EngineStep)
    (h : (decode_frame app (sz :: rest) engs).ret = Retval.ok) :
    run_loop1 app (sz :: rest) engs =
      loop_step_merge (decode_frame app (sz :: rest) engs)
        (run_loop1 (decode_frame app (sz :: rest) engs).app rest
          (decode_frame app (sz :: rest) engs).engs) := by
  conv_lhs => rw [run_loop1]
  rw [if_pos h]

lemma run_loop1_cons_eos (app : AppData) (sz : Nat) (rest : List Nat)
    (engs : List EngineStep)
    (h : (decode_frame app (sz :: rest) engs).ret = Retval.eos) :
    run_loop1 app (sz :: rest) engs = decode_frame app (sz :: rest) engs := by
  conv_lhs => rw [run_loop1]
  rw [if_neg (by rw [h]; exact fun hc => Retval.noConfusion hc)]

lemma run_loop2_cons_ok (app : AppData) (src : List Nat) (e : EngineStep)
    (rest : List EngineStep)
    (h : (decode_frame app src (e :: rest)).ret = Retval.ok) :
    run_loop2 app src (e :: rest) =
      loop_step_merge (decode_frame app src (e :: rest))
        (run_loop2 (decode_frame app src (e :: rest)).app
          (decode_frame app src (e :: rest)).src rest) := by
  conv_lhs => rw [run_loop2]
  rw [if_pos h]

lemma run_loop2_cons_eos (app : AppData) (src : List Nat) (e : EngineStep)
    (rest : List EngineStep)
    (h : (decode_frame app src (e :: rest)).ret = Retval.eos) :
    run_loop2 app src (e :: rest) = decode_frame app src (e :: rest) := by
  conv_lhs => rw [run_loop2]
  rw [if_neg (by rw [h]; exact fun hc => Retval.noConfusion hc)]

lemma alloc_indices_cons_call (f : EncodedFrame) (tr : List Event) :
    alloc_indices (Event.decode_call f :: tr) = alloc_indices tr := rfl

lemma pool_events_none {e : EngineStep}
    (h : e.output_code.initial_info_available = false) : pool_events e = [] := by
  unfold pool_events
  rw [h]
  rfl

/-- Consolidated facts about one `decode_frame` step: either the step
reaches the engine (consuming the head of the engine trace, emitting
the decode call and the branch events, updating the pool size), or it
returns early with no events and no state change. -/
lemma decode_frame_facts (app : AppData) (src : List Nat) (engs : List EngineStep) :
    (makes_decode_call app src = true ∧
      (decode_frame app src engs).engs = engs.tail ∧
      (decode_frame app src engs).events.countP is_fetch_event =
        (if (engs.headD defaultEngineStep).output_code.decoded_picture_available
         then 1 else 0) ∧
      (decode_frame app src engs).events.countP is_mark_event =
        (if (engs.headD defaultEngineStep).output_code.decoded_picture_available
         then 1 else 0) ∧
      alloc_indices (decode_frame app src engs).events =
        (if (engs.headD defaultEngineStep).output_code.initial_info_available then
          List.range (engs.headD defaultEngineStep).initial_info.min_num_required_framebuffers
         else []) ∧
      (decode_frame app src engs).app.num_framebuffers =
        (if (engs.headD defaultEngineStep).output_code.initial_info_available then
          (engs.headD defaultEngineStep).initial_info.min_num_required_framebuffers
         else app.num_framebuffers) ∧
      submitted_data_contexts (decode_frame app src engs).events =
        (if app.drain then ([] : List Nat) else [app.frame_id_counter]) ∧
      ((engs.headD defaultEngineStep).output_code.initial_info_available = false →
        (decode_frame app src engs).events.countP is_pool_event = 0)) ∨
    (makes_decode_call app src = false ∧
      (decode_frame app src engs).engs = engs ∧
      (decode_frame app src engs).app = app ∧
      (decode_frame app src engs).events = []) := by
  rcases decode_frame_cases app src engs with ⟨hd, h⟩ | ⟨hd, hsrc, h⟩ |
    ⟨rest, hd, hsrc, h⟩ | ⟨sz, rest, hd, hsrc, hz, h⟩
  · left
    refine ⟨by simp [makes_decode_call, hd], ?_, ?_, ?_, ?_, ?_, ?_, ?_⟩ <;> rw [h]
    · rw [decode_core_engs]
    · simp [decode_core_events, List.countP_cons, List.countP_append, pool_no_fetch,
        picdrop_fetch, is_fetch_event]
    · simp [decode_core_events, List.countP_cons, List.countP_append, pool_no_mark,
        picdrop_mark, is_mark_event]
    · rw [decode_core_events, alloc_indices_cons_call, alloc_indices_append,
        alloc_indices_pool, alloc_indices_picdrop, List.append_nil]
    · simp [decode_core_app, bump_counter_num, pool_update_num]
    · rw [decode_core_events, submitted_data_contexts_cons_call]
      simp [drain_frame, submitted_data_contexts_append, submitted_data_contexts_pool,
        submitted_data_contexts_picdrop, hd]
    · intro hflag
      rw [decode_core_events, pool_events_none hflag]
      simp [List.countP_cons, List.countP_append, picdrop_no_pool, is_pool_event]
  · right
    subst hsrc
    rw [h]
    exact ⟨by simp [makes_decode_call, hd], rfl, rfl, rfl⟩
  · right
    subst hsrc
    rw [h]
    exact ⟨by simp [makes_decode_call, hd], rfl, rfl, rfl⟩
  · left
    subst hsrc
    refine ⟨by simp [makes_decode_call, hd, hz], ?_, ?_, ?_, ?_, ?_, ?_, ?_⟩ <;> rw [h]
    · rw [decode_core_engs]
    · simp [decode_core_events, List.countP_cons, List.countP_append, pool_no_fetch,
        picdrop_fetch, is_fetch_event]
    · simp [decode_core_events, List.countP_cons, List.countP_append, pool_no_mark,
        picdrop_mark, is_mark_event]
    · rw [decode_core_events, alloc_indices_cons_call, alloc_indices_append,
        alloc_indices_pool, alloc_indices_picdrop, List.append_nil]
    · simp [decode_core_app, bump_counter_num, pool_update_num]
    · rw [decode_core_events, submitted_data_contexts_cons_call]
      simp [submitted_data_contexts_append, submitted_data_contexts_pool,
        submitted_data_contexts_picdrop, hd]
    · intro hflag
      rw [decode_core_events, pool_events_none hflag]
      simp [List.countP_cons, List.countP_append, picdrop_no_pool, is_pool_event]

/-! ## Loop invariants -/

lemma run_loop1_ne_error (src : List Nat) : ∀ (app : AppData) (engs : List EngineStep),
    (run_loop1 app src engs).ret ≠ Retval.error := by
  induction src with
  | nil => intro app engs; simp [run_loop1]
  | cons sz rest ih =>
    intro app engs
    rcases decode_frame_ret_cases app (sz :: rest) engs with hr | hr
    · rw [run_loop1_cons_ok app sz rest engs hr, loop_step_merge_ret]
      exact ih _ _
    · rw [run_loop1_cons_eos app sz rest engs hr]
      simp [hr]

lemma run_loop2_ne_error (engs : List EngineStep) :
    ∀ (app : AppData) (src : List Nat), (run_loop2 app src engs).ret ≠ Retval.error := by
  induction engs with
  | nil => intro app src; simp [run_loop2]
  | cons e rest ih =>
    intro app src
    rcases decode_frame_ret_cases app src (e :: rest) with hr | hr
    · rw [run_loop2_cons_ok app src e rest hr, loop_step_merge_ret]
      exact ih _ _
    · rw [run_loop2_cons_eos app src e rest hr]
      simp [hr]

lemma run_loop1_preserve (src : List Nat) : ∀ (app : AppData) (engs : List EngineStep),
    (run_loop1 app src engs).app.drain = app.drain ∧
    (run_loop1 app src engs).app.fin_open = app.fin_open ∧
    (run_loop1 app src engs).app.fout_open = app.fout_open := by
  induction src with
  | nil => intro app engs; exact ⟨rfl, rfl, rfl⟩
  | cons sz rest ih =>
    intro app engs
    rcases decode_frame_ret_cases app (sz :: rest) engs with hr | hr
    · rw [run_loop1_cons_ok app sz rest engs hr]
      obtain ⟨h1, h2, h3⟩ := ih (decode_frame app (sz :: rest) engs).app
        (decode_frame app (sz :: rest) engs).engs
      exact ⟨by rw [loop_step_merge_app, h1, decode_frame_drain],
        by rw [loop_step_merge_app, h2, decode_frame_fin],
        by rw [loop_step_merge_app, h3, decode_frame_fout]⟩
    · rw [run_loop1_cons_eos app sz rest engs hr]
      exact ⟨decode_frame_drain _ _ _, decode_frame_fin _ _ _, decode_frame_fout _ _ _⟩

lemma run_loop2_preserve (engs : List EngineStep) :
    ∀ (app : AppData) (src : List Nat),
    (run_loop2 app src engs).app.drain = app.drain ∧
    (run_loop2 app src engs).app.fin_open = app.fin_open ∧
    (run_loop2 app src engs).app.fout_open = app.fout_open := by
  induction engs with
  | nil => intro app src; exact ⟨rfl, rfl, rfl⟩
  | cons e rest ih =>
    intro app src
    rcases decode_frame_ret_cases app src (e :: rest) with hr | hr
    · rw [run_loop2_cons_ok app src e rest hr]
      obtain ⟨h1, h2, h3⟩ := ih (decode_frame app src (e :: rest)).app
        (decode_frame app src (e :: rest)).src
      exact ⟨by rw [loop_step_merge_app, h1, decode_frame_drain],
        by rw [loop_step_merge_app, h2, decode_frame_fin],
        by rw [loop_step_merge_app, h3, decode_frame_fout]⟩
    · rw [run_loop2_cons_eos app src e rest hr]
      exact ⟨decode_frame_drain _ _ _, decode_frame_fin _ _ _, decode_frame_fout _ _ _⟩

lemma decode_frame_no_teardown (app : AppData) (src : List Nat) (engs : List EngineStep) :
    (decode_frame app src engs).events.countP is_teardown_event = 0 := by
  rcases decode_frame_cases app src engs with ⟨_, h⟩ | ⟨_, _, h⟩ | ⟨rest, _, _, h⟩ |
    ⟨sz, rest, _, _, _, h⟩ <;> rw [h] <;>
    simp [decode_core_events, List.countP_cons, List.countP_append, pool_no_teardown,
      picdrop_no_teardown, is_teardown_event]

lemma decode_frame_no_enable (app : AppData) (src : List Nat) (engs : List EngineStep) :
    (decode_frame app src engs).events.countP is_enable_event = 0 := by
  rcases decode_frame_cases app src engs with ⟨_, h⟩ | ⟨_, _, h⟩ | ⟨rest, _, _, h⟩ |
    ⟨sz, rest, _, _, _, h⟩ <;> rw [h] <;>
    simp [decode_core_events, List.countP_cons, List.countP_append, pool_no_enable,
      picdrop_no_enable, is_enable_event]

lemma run_loop1_no_teardown (src : List Nat) : ∀ (app : AppData) (engs : List EngineStep),
    (run_loop1 app src engs).events.countP is_teardown_event = 0 := by
  induction src with
  | nil => intro app engs; rfl
  | cons sz rest ih =>
    intro app engs
    rcases decode_frame_ret_cases app (sz :: rest) engs with hr | hr
    · rw [run_loop1_cons_ok app sz rest engs hr, loop_step_merge_events,
        List.countP_append, decode_frame_no_teardown, ih]
    · rw [run_loop1_cons_eos app sz rest engs hr, decode_frame_no_teardown]

lemma run_loop2_no_teardown (engs : List EngineStep) :
    ∀ (app : AppData) (src : List Nat),
    (run_loop2 app src engs).events.countP is_teardown_event = 0 := by
  induction engs with
  | nil => intro app src; rfl
  | cons e rest ih =>
    intro app src
    rcases decode_frame_ret_cases app src (e :: rest) with hr | hr
    · rw [run_loop2_cons_ok app src e rest hr, loop_step_merge_events,
        List.countP_append, decode_frame_no_teardown, ih]
    · rw [run_loop2_cons_eos app src e rest hr, decode_frame_no_teardown]

lemma run_loop1_no_enable (src : List Nat) : ∀ (app : AppData) (engs : List EngineStep),
    (run_loop1 app src engs).events.countP is_enable_event = 0 := by
  induction src with
  | nil => intro app engs; rfl
  | cons sz rest ih =>
    intro app engs
    rcases decode_frame_ret_cases app (sz :: rest) engs with hr | hr
    · rw [run_loop1_cons_ok app sz rest engs hr, loop_step_merge_events,
        List.countP_append, decode_frame_no_enable, ih]
    · rw [run_loop1_cons_eos app sz rest engs hr, decode_frame_no_enable]

lemma run_loop2_no_enable (engs : List EngineStep) :
    ∀ (app : AppData) (src : List Nat),
    (run_loop2 app src engs).events.countP is_enable_event = 0 := by
  induction engs with
  | nil => intro app src; rfl
  | cons e rest ih =>
    intro app src
    rcases decode_frame_ret_cases app src (e :: rest) with hr | hr
    · rw [run_loop2_cons_ok app src e rest hr, loop_step_merge_events,
        List.countP_append, decode_frame_no_enable, ih]
    · rw [run_loop2_cons_eos app src e rest hr, decode_frame_no_enable]

lemma decode_frame_ret_ok_makes (app : AppData) (src : List Nat) (engs : List EngineStep)
    (h : (decode_frame app src engs).ret = Retval.ok) :
    makes_decode_call app src = true := by
  cases hm : makes_decode_call app src
  · rw [decode_frame_ret, hm] at h
    simp at h
  · rfl

/-- Engine consumption and per-flag counting over the first decode
loop: the loop consumes a prefix `used` of the engine trace; fetch
events match the `DECODED_PICTURE_AVAILABLE` flags of the consumed
responses and mark events match fetch events; if no consumed response
carried `INITIAL_INFO_AVAILABLE`, the loop emits no pool-build call
and leaves the pool size unchanged; and if the pool size was zero and
at most one consumed response carried it, the allocated framebuffer
indices are exactly `List.range` of the final pool size. -/
lemma run_loop1_consumed (src : List Nat) : ∀ (app : AppData) (engs : List EngineStep),
    ∃ used, engs = used ++ (run_loop1 app src engs).engs ∧
      (run_loop1 app src engs).events.countP is_fetch_event = pic_count used ∧
      (run_loop1 app src engs).events.countP is_mark_event =
        (run_loop1 app src engs).events.countP is_fetch_event ∧
      (info_count used = 0 →
        (run_loop1 app src engs).events.countP is_pool_event = 0 ∧
        (run_loop1 app src engs).app.num_framebuffers = app.num_framebuffers) ∧
      (app.num_framebuffers = 0 → info_count used ≤ 1 →
        alloc_indices (run_loop1 app src engs).events =
          List.range (run_loop1 app src engs).app.num_framebuffers) := by
  induction src with
  | nil =>
    intro app engs
    refine ⟨[], by simp [run_loop1], by simp [run_loop1, pic_count], by simp [run_loop1],
      fun _ => ⟨by simp [run_loop1], by simp [run_loop1]⟩, fun h0 _ => ?_⟩
    simp [run_loop1, alloc_indices, h0]
  | cons sz rest ih =>
    intro app engs
    rcases decode_frame_ret_cases app (sz :: rest) engs with hr | hr
    · have hmk := decode_frame_ret_ok_makes app (sz :: rest) engs hr
      rcases decode_frame_facts app (sz :: rest) engs with
        ⟨_, heng, hfetch, hmark, halloc, hnum, _, hpool⟩ | ⟨hmk', _, _, _⟩
      swap
      · rw [hmk] at hmk'; cases hmk'
      rw [run_loop1_cons_ok app sz rest engs hr]
      rcases engs with _ | ⟨e, t⟩
      · simp only [List.tail_nil] at heng
        have hfetch' : List.countP is_fetch_event
            (decode_frame app (sz :: rest) []).events = 0 := hfetch
        have hmark' : List.countP is_mark_event
            (decode_frame app (sz :: rest) []).events = 0 := hmark
        have halloc' : alloc_indices (decode_frame app (sz :: rest) []).events = [] := halloc
        have hnum' : (decode_frame app (sz :: rest) []).app.num_framebuffers =
            app.num_framebuffers := hnum
        have hpool' : List.countP is_pool_event
            (decode_frame app (sz :: rest) []).events = 0 := hpool rfl
        rw [heng]
        obtain ⟨used2, hu2, hfetch2, hmark2, himp1, himp2⟩ :=
          ih (decode_frame app (sz :: rest) []).app []
        obtain ⟨hu2l, hu2r⟩ := List.append_eq_nil.mp hu2.symm
        refine ⟨[], ?_, ?_, ?_, ?_, ?_⟩
        · rw [loop_step_merge_engs, List.nil_append, hu2r]
        · rw [loop_step_merge_events, List.countP_append, hfetch', hfetch2, hu2l]
          simp [pic_count]
        · rw [loop_step_merge_events, List.countP_append, List.countP_append,
            hfetch', hmark', hmark2, hfetch2]
        · intro _
          have h2 := himp1 (by rw [hu2l]; rfl)
          exact ⟨by rw [loop_step_merge_events, List.countP_append, h2.1, hpool'],
            by rw [loop_step_merge_app, h2.2, hnum']⟩
        · intro h0 _
          have hn : (decode_frame app (sz :: rest) []).app.num_framebuffers = 0 := by
            rw [hnum']; exact h0
          rw [loop_step_merge_events, alloc_indices_append, loop_step_merge_app,
            himp2 hn (by rw [hu2l]; exact Nat.zero_le 1), halloc', List.nil_append]
      · simp only [List.tail_cons] at heng
        simp only [List.headD_cons] at hfetch hmark halloc hnum hpool
        rw [heng]
        obtain ⟨used2, hu2, hfetch2, hmark2, himp1, himp2⟩ :=
          ih (decode_frame app (sz :: rest) (e :: t)).app t
        refine ⟨e :: used2, ?_, ?_, ?_, ?_, ?_⟩
        · rw [loop_step_merge_engs, List.cons_append]
          exact congrArg (List.cons e) hu2
        · rw [loop_step_merge_events, List.countP_append, hfetch, hfetch2]
          have hpc : pic_count (e :: used2) =
              pic_count used2 +
                (if e.output_code.decoded_picture_available = true then 1 else 0) := by
            simp [pic_count, List.countP_cons]
          rw [hpc]
          exact Nat.add_comm _ _
        · rw [loop_step_merge_events, List.countP_append, List.countP_append,
            hfetch, hmark, hmark2, hfetch2]
        · intro hinfo
          have hi : e.output_code.initial_info_available = false := by
            cases hi' : e.output_code.initial_info_available
            · rfl
            · exfalso; simp [info_count, List.countP_cons, hi'] at hinfo
          have hz2 : info_count used2 = 0 := by
            simpa [info_count, List.countP_cons, hi] using hinfo
          have h2 := himp1 hz2
          refine ⟨?_, ?_⟩
          · rw [loop_step_merge_events, List.countP_append, h2.1, hpool hi]
          · rw [loop_step_merge_app, h2.2, hnum, hi]
            simp
        · intro h0 hle
          rw [loop_step_merge_events, alloc_indices_append, loop_step_merge_app]
          cases hi : e.output_code.initial_info_available
          · have hn : (decode_frame app (sz :: rest) (e :: t)).app.num_framebuffers = 0 := by
              rw [hnum, hi]; simpa using h0
            have hle2 : info_count used2 ≤ 1 := by
              simpa [info_count, List.countP_cons, hi] using hle
            rw [himp2 hn hle2, halloc, hi]
            simp
          · have hz2 : info_count used2 = 0 := by
              have hcons : info_count (e :: used2) =
                  info_count used2 +
                    (if e.output_code.initial_info_available = true then 1 else 0) := by
                simp [info_count, List.countP_cons]
              rw [hcons, hi] at hle
              simp at hle
              omega
            obtain ⟨hpool2, hnum2⟩ := himp1 hz2
            rw [alloc_indices_eq_nil_of_no_pool hpool2, halloc, hi, hnum2, hnum, hi]
            simp
    · rcases decode_frame_facts app (sz :: rest) engs with
        ⟨_, heng, hfetch, hmark, halloc, hnum, _, hpool⟩ | ⟨_, heng, happ, hevs⟩
      · rw [run_loop1_cons_eos app sz rest engs hr]
        rcases engs with _ | ⟨e, t⟩
        · simp only [List.tail_nil] at heng
          have hfetch' : List.countP is_fetch_event
              (decode_frame app (sz :: rest) []).events = 0 := hfetch
          have hmark' : List.countP is_mark_event
              (decode_frame app (sz :: rest) []).events = 0 := hmark
          have halloc' : alloc_indices (decode_frame app (sz :: rest) []).events = [] := halloc
          have hnum' : (decode_frame app (sz :: rest) []).app.num_framebuffers =
              app.num_framebuffers := hnum
          have hpool' : List.countP is_pool_event
              (decode_frame app (sz :: rest) []).events = 0 := hpool rfl
          refine ⟨[], by rw [heng]; rfl, ?_, by rw [hmark', hfetch'], ?_, ?_⟩
          · rw [hfetch']; simp [pic_count]
          · intro _
            exact ⟨hpool', hnum'⟩
          · intro h0 _
            rw [halloc', hnum', h0]
            rfl
        · simp only [List.tail_cons] at heng
          simp only [List.headD_cons] at hfetch hmark halloc hnum hpool
          refine ⟨[e], by rw [heng]; rfl, ?_, by rw [hmark, hfetch], ?_, ?_⟩
          · rw [hfetch]
            have hpc : pic_count [e] =
                (if e.output_code.decoded_picture_available = true then 1 else 0) := by
              simp [pic_count, List.countP_cons]
            rw [hpc]
          · intro hinfo
            have hi : e.output_code.initial_info_available = false := by
              cases hi' : e.output_code.initial_info_available
              · rfl
              · exfalso; simp [info_count, List.countP_cons, hi'] at hinfo
            refine ⟨hpool hi, ?_⟩
            rw [hnum, hi]
            simp
          · intro h0 _
            cases hi : e.output_code.initial_info_available
            · rw [halloc, hnum, hi, h0]
              simp
            · rw [halloc, hnum, hi]
              simp
      · rw [run_loop1_cons_eos app sz rest engs hr]
        refine ⟨[], by rw [heng]; rfl, by rw [hevs]; rfl, by rw [hevs]; rfl, ?_, ?_⟩
        · intro _
          exact ⟨by rw [hevs]; rfl, by rw [happ]⟩
        · intro h0 _
          rw [hevs, happ, h0]
          rfl

/-- Engine consumption and per-flag counting over the drain loop;
exactly the properties of `run_loop1_consumed`. -/
lemma run_loop2_consumed (engs : List EngineStep) :
    ∀ (app : AppData) (src : List Nat),
    ∃ used, engs = used ++ (run_loop2 app src engs).engs ∧
      (run_loop2 app src engs).events.countP is_fetch_event = pic_count used ∧
      (run_loop2 app src engs).events.countP is_mark_event =
        (run_loop2 app src engs).events.countP is_fetch_event ∧
      (info_count used = 0 →
        (run_loop2 app src engs).events.countP is_pool_event = 0 ∧
        (run_loop2 app src engs).app.num_framebuffers = app.num_framebuffers) ∧
      (app.num_framebuffers = 0 → info_count used ≤ 1 →
        alloc_indices (run_loop2 app src engs).events =
          List.range (run_loop2 app src engs).app.num_framebuffers) := by
  induction engs with
  | nil =>
    intro app src
    refine ⟨[], by simp [run_loop2], by simp [run_loop2, pic_count], by simp [run_loop2],
      fun _ => ⟨by simp [run_loop2], by simp [run_loop2]⟩, fun h0 _ => ?_⟩
    simp [run_loop2, alloc_indices, h0]
  | cons e t ih =>
    intro app src
    rcases decode_frame_ret_cases app src (e :: t) with hr | hr
    · have hmk := decode_frame_ret_ok_makes app src (e :: t) hr
      rcases decode_frame_facts app src (e :: t) with
        ⟨_, heng, hfetch, hmark, halloc, hnum, _, hpool⟩ | ⟨hmk', _, _, _⟩
      swap
      · rw [hmk] at hmk'; cases hmk'
      rw [run_loop2_cons_ok app src e t hr]
      simp only [List.tail_cons] at heng
      simp only [List.headD_cons] at hfetch hmark halloc hnum hpool
      obtain ⟨used2, hu2, hfetch2, hmark2, himp1, himp2⟩ :=
        ih (decode_frame app src (e :: t)).app (decode_frame app src (e :: t)).src
      refine ⟨e :: used2, ?_, ?_, ?_, ?_, ?_⟩
      · rw [loop_step_merge_engs, List.cons_append]
        exact congrArg (List.cons e) hu2
      · rw [loop_step_merge_events, List.countP_append, hfetch, hfetch2]
        have hpc : pic_count (e :: used2) =
            pic_count used2 +
              (if e.output_code.decoded_picture_available = true then 1 else 0) := by
          simp [pic_count, List.countP_cons]
        rw [hpc]
        exact Nat.add_comm _ _
      · rw [loop_step_merge_events, List.countP_append, List.countP_append,
          hfetch, hmark, hmark2, hfetch2]
      · intro hinfo
        have hi : e.output_code.initial_info_available = false := by
          cases hi' : e.output_code.initial_info_available
          · rfl
          · exfalso; simp [info_count, List.countP_cons, hi'] at hinfo
        have hz2 : info_count used2 = 0 := by
          simpa [info_count, List.countP_cons, hi] using hinfo
        have h2 := himp1 hz2
        refine ⟨?_, ?_⟩
        · rw [loop_step_merge_events, List.countP_append, h2.1, hpool hi]
        · rw [loop_step_merge_app, h2.2, hnum, hi]
          simp
      · intro h0 hle
        rw [loop_step_merge_events, alloc_indices_append, loop_step_merge_app]
        cases hi : e.output_code.initial_info_available
        · have hn : (decode_frame app src (e :: t)).app.num_framebuffers = 0 := by
            rw [hnum, hi]; simpa using h0
          have hle2 : info_count used2 ≤ 1 := by
            simpa [info_count, List.countP_cons, hi] using hle
          rw [himp2 hn hle2, halloc, hi]
          simp
        · have hz2 : info_count used2 = 0 := by
            have hcons : info_count (e :: used2) =
                info_count used2 +
                  (if e.output_code.initial_info_available = true then 1 else 0) := by
              simp [info_count, List.countP_cons]
            rw [hcons, hi] at hle
            simp at hle
            omega
          obtain ⟨hpool2, hnum2⟩ := himp1 hz2
          rw [alloc_indices_eq_nil_of_no_pool hpool2, halloc, hi, hnum2, hnum, hi]
          simp
    · rcases decode_frame_facts app src (e :: t) with
        ⟨_, heng, hfetch, hmark, halloc, hnum, _, hpool⟩ | ⟨_, heng, happ, hevs⟩
      · rw [run_loop2_cons_eos app src e t hr]
        simp only [List.tail_cons] at heng
        simp only [List.headD_cons] at hfetch hmark halloc hnum hpool
        refine ⟨[e], by rw [heng]; rfl, ?_, by rw [hmark, hfetch], ?_, ?_⟩
        · rw [hfetch]
          have hpc : pic_count [e] =
              (if e.output_code.decoded_picture_available = true then 1 else 0) := by
            simp [pic_count, List.countP_cons]
          rw [hpc]
        · intro hinfo
          have hi : e.output_code.initial_info_available = false := by
            cases hi' : e.output_code.initial_info_available
            · rfl
            · exfalso; simp [info_count, List.countP_cons, hi'] at hinfo
          refine ⟨hpool hi, ?_⟩
          rw [hnum, hi]
          simp
        · intro h0 _
          cases hi : e.output_code.initial_info_available
          · rw [halloc, hnum, hi, h0]
            simp
          · rw [halloc, hnum, hi]
            simp
      · rw [run_loop2_cons_eos app src e t hr]
        refine ⟨[], by rw [heng]; rfl, by rw [hevs]; rfl, by rw [hevs]; rfl, ?_, ?_⟩
        · intro _
          exact ⟨by rw [hevs]; rfl, by rw [happ]⟩
        · intro h0 _
          rw [hevs, happ, h0]
          rfl

/-- Every `decode_frame` step taken in drain mode submits exactly the
empty drain frame. -/
lemma decode_frame_drain_calls (app : AppData) (src : List Nat) (engs : List EngineStep)
    (hd : app.drain = true) :
    ∀ f, Event.decode_call f ∈ (decode_frame app src engs).events → f = drain_frame := by
  intro f hf
  rcases decode_frame_cases app src engs with ⟨_, h⟩ | ⟨hd', _, _⟩ | ⟨_, hd', _, _⟩ |
    ⟨_, _, hd', _, _, _⟩
  · rw [h, decode_core_events] at hf
    rcases List.mem_cons.mp hf with hea | hmem
    · exact Event.decode_call.inj hea
    · rcases List.mem_append.mp hmem with hp | hp
      · rcases mem_pool_events hp with ⟨i, he⟩ | he | ⟨i, s2, a2, b2, he⟩ |
          ⟨i, c2, he⟩ | ⟨n, he⟩ <;> exact Event.noConfusion he
      · rcases mem_picdrop_events hp with ⟨c2, i, he⟩ | ⟨i, he⟩ | ⟨n, he⟩ | ⟨i, he⟩ |
          ⟨i, he⟩ | ⟨c2, he⟩ <;> exact Event.noConfusion he
  · exact Bool.noConfusion (hd.symm.trans hd')
  · exact Bool.noConfusion (hd.symm.trans hd')
  · exact Bool.noConfusion (hd.symm.trans hd')

/-- Every frame submitted by the drain loop is the empty drain frame. -/
lemma run_loop2_drain_calls (engs : List EngineStep) :
    ∀ (app : AppData) (src : List Nat), app.drain = true →
    ∀ f, Event.decode_call f ∈ (run_loop2 app src engs).events → f = drain_frame := by
  induction engs with
  | nil =>
    intro app src _ f hf
    cases hf
  | cons e t ih =>
    intro app src hd f hf
    rcases decode_frame_ret_cases app src (e :: t) with hr | hr
    · rw [run_loop2_cons_ok app src e t hr, loop_step_merge_events] at hf
      rcases List.mem_append.mp hf with hf1 | hf2
      · exact decode_frame_drain_calls app src (e :: t) hd f hf1
      · exact ih (decode_frame app src (e :: t)).app (decode_frame app src (e :: t)).src
          (by rw [decode_frame_drain, hd]) f hf2
    · rw [run_loop2_cons_eos app src e t hr] at hf
      exact decode_frame_drain_calls app src (e :: t) hd f hf

/-- The drain loop never submits a frame carrying payload data. -/
lemma run_loop2_submitted (engs : List EngineStep) :
    ∀ (app : AppData) (src : List Nat), app.drain = true →
    submitted_data_contexts (run_loop2 app src engs).events = [] := by
  induction engs with
  | nil => intro app src _; rfl
  | cons e t ih =>
    intro app src hd
    rcases decode_frame_ret_cases app src (e :: t) with hr | hr
    · rw [run_loop2_cons_ok app src e t hr, loop_step_merge_events,
        submitted_data_contexts_append]
      have h2 := ih (decode_frame app src (e :: t)).app (decode_frame app src (e :: t)).src
        (by rw [decode_frame_drain, hd])
      rcases decode_frame_facts app src (e :: t) with ⟨_, _, _, _, _, _, hsub, _⟩ |
        ⟨_, _, _, hevs⟩
      · rw [hsub, if_pos hd, h2]
        rfl
      · rw [hevs, h2]
        rfl
    · rw [run_loop2_cons_eos app src e t hr]
      rcases decode_frame_facts app src (e :: t) with ⟨_, _, _, _, _, _, hsub, _⟩ |
        ⟨_, _, _, hevs⟩
      · rw [hsub, if_pos hd]
      · rw [hevs]
        rfl

/-- The contexts attached to the frames submitted by the first decode
loop are a contiguous run of the counter values, starting at the
loop-entry counter, as long as the counter cannot wrap during the
loop. -/
lemma run_loop1_contexts (src : List Nat) : ∀ (app : AppData) (engs : List EngineStep),
    app.drain = false → app.frame_id_counter < U32 →
    app.frame_id_counter + src.length ≤ U32 →
    ∃ m, m ≤ src.length ∧
      submitted_data_contexts (run_loop1 app src engs).events =
        List.range' app.frame_id_counter m := by
  induction src with
  | nil => intro app engs _ _ _; exact ⟨0, Nat.le_refl 0, rfl⟩
  | cons sz rest ih =>
    intro app engs hd hlt hlen
    simp only [List.length_cons] at hlen
    rcases decode_frame_ret_cases app (sz :: rest) engs with hr | hr
    · have hmk := decode_frame_ret_ok_makes app (sz :: rest) engs hr
      rcases decode_frame_facts app (sz :: rest) engs with ⟨_, _, _, _, _, _, hsub, _⟩ |
        ⟨hmk', _, _, _⟩
      swap
      · rw [hmk] at hmk'; cases hmk'
      rw [run_loop1_cons_ok app sz rest engs hr, loop_step_merge_events,
        submitted_data_contexts_append, hsub, if_neg (by simp [hd])]
      have hd2 : (decode_frame app (sz :: rest) engs).app.drain = false := by
        rw [decode_frame_drain, hd]
      have hcnt := decode_frame_counter app (sz :: rest) engs
      rw [hmk] at hcnt
      simp only [if_pos] at hcnt
      by_cases hcu : app.frame_id_counter + 1 < U32
      · have hc' : (decode_frame app (sz :: rest) engs).app.frame_id_counter =
            app.frame_id_counter + 1 := by
          rw [hcnt]; exact Nat.mod_eq_of_lt hcu
        obtain ⟨m2, hm2le, hm2⟩ := ih (decode_frame app (sz :: rest) engs).app
          (decode_frame app (sz :: rest) engs).engs hd2 (by rw [hc']; exact hcu)
          (by rw [hc']; omega)
        refine ⟨m2 + 1, Nat.succ_le_succ hm2le |>.trans (by simp), ?_⟩
        rw [hm2, hc', List.range'_succ]
        rfl
      · have hc1 : app.frame_id_counter + 1 = U32 := by omega
        have hrest : rest = [] := List.eq_nil_of_length_eq_zero (by omega)
        subst hrest
        refine ⟨1, by simp, ?_⟩
        have hbase : run_loop1 (decode_frame app [sz] engs).app []
            (decode_frame app [sz] engs).engs =
            ⟨Retval.eos, (decode_frame app [sz] engs).app, [],
              (decode_frame app [sz] engs).engs, []⟩ := rfl
        rw [hbase]
        rfl
    · rcases decode_frame_facts app (sz :: rest) engs with ⟨_, _, _, _, _, _, hsub, _⟩ |
        ⟨_, _, _, hevs⟩
      · rw [run_loop1_cons_eos app sz rest engs hr]
        refine ⟨1, by simp, ?_⟩
        rw [hsub, if_neg (by simp [hd])]
        rfl
      · rw [run_loop1_cons_eos app sz rest engs hr]
        exact ⟨0, Nat.zero_le _, by rw [hevs]; rfl⟩

/-- If every unit of the source is nonempty and the engine (whose trace
is long enough) never reports `EOS` during the first loop, the first
loop consumes the whole source — drain mode is entered only with the
input exhausted — and consumes exactly one engine response per unit. -/
lemma run_loop1_consumes_all (src : List Nat) :
    ∀ (app : AppData) (eng1 eng2 : List EngineStep), app.drain = false →
    (∀ s ∈ src, s ≠ 0) → eng1.length = src.length →
    (∀ e ∈ eng1, e.output_code.eos = false) →
    (run_loop1 app src (eng1 ++ eng2)).src = [] ∧
    (run_loop1 app src (eng1 ++ eng2)).engs = eng2 := by
  induction src with
  | nil =>
    intro app eng1 eng2 _ _ hlen _
    have h1 : eng1 = [] := List.eq_nil_of_length_eq_zero (by rw [hlen]; rfl)
    subst h1
    exact ⟨rfl, rfl⟩
  | cons sz rest ih =>
    intro app eng1 eng2 hd hpos hlen hnoeos
    rcases eng1 with _ | ⟨e, t⟩
    · exfalso
      simp at hlen
    · simp only [List.cons_append]
      have hsz : sz ≠ 0 := hpos sz (List.mem_cons_self sz rest)
      have hr : (decode_frame app (sz :: rest) (e :: (t ++ eng2))).ret = Retval.ok := by
        rw [decode_frame_ret]
        have hm : makes_decode_call app (sz :: rest) = true := by
          simp [makes_decode_call, hd, hsz]
        rw [hm]
        simp only [List.headD_cons]
        simp [hnoeos e (List.mem_cons_self e t)]
      rcases decode_frame_facts app (sz :: rest) (e :: (t ++ eng2)) with
        ⟨_, heng, _⟩ | ⟨hmk', _, _, _⟩
      swap
      · rw [decode_frame_ret_ok_makes _ _ _ hr] at hmk'; cases hmk'
      simp only [List.tail_cons] at heng
      rw [run_loop1_cons_ok _ _ _ _ hr, loop_step_merge_src, loop_step_merge_engs, heng]
      have hd2 : (decode_frame app (sz :: rest) (e :: (t ++ eng2))).app.drain = false := by
        rw [decode_frame_drain, hd]
      have hlen2 : t.length = rest.length := by
        simp [List.length_cons] at hlen
        omega
      exact ih (decode_frame app (sz :: rest) (e :: (t ++ eng2))).app t eng2 hd2
        (fun s hs => hpos s (List.mem_cons_of_mem _ hs)) hlen2
        (fun e' he' => hnoeos e' (List.mem_cons_of_mem _ he'))

/-- Unfolding of `mainRun` past a successful `init` (using that the two
decode loops never return `RETVAL_ERROR`): exit code 0 and the full
trace in program order. -/
lemma mainRun_eq (ii : InitInputs) (src : List Nat) (engs : List EngineStep)
    (hinit : init_ret ii ≠ Retval.error) :
    mainRun ii src engs =
      (0, init_events ii ++ (run_loop1 initialApp src engs).events
            ++ [Event.enable_drain_mode true]
            ++ (run_loop2 (set_drain (run_loop1 initialApp src engs).app)
                  (run_loop1 initialApp src engs).src
                  (run_loop1 initialApp src engs).engs).events
            ++ shutdown (run_loop2 (set_drain (run_loop1 initialApp src engs).app)
                  (run_loop1 initialApp src engs).src
                  (run_loop1 initialApp src engs).engs).app) := by
  unfold mainRun
  rw [if_neg hinit, if_neg (run_loop1_ne_error src initialApp engs),
    if_neg (run_loop2_ne_error _ _ _)]

/-! ## Facts about the `init` and `shutdown` traces -/

lemma init_ret_ok_events (ii : InitInputs) (h : init_ret ii ≠ Retval.error) :
    init_events ii =
      [Event.open_input_file true, Event.open_output_file true, Event.dec_load,
        Event.get_bitstream_buffer_info,
        Event.alloc_bitstream_buffer ii.bitstream_alloc_ok,
        Event.dec_open ii.dec_open_ok] := by
  unfold init_ret at h
  unfold init_events
  cases ha : ii.args_ok <;> cases hf : ii.fin_ok <;> cases ho : ii.fout_ok <;>
    simp [ha, hf, ho] at h ⊢

lemma count_range_eq (i n : Nat) : (List.range n).count i = if i < n then 1 else 0 := by
  induction n with
  | zero => simp
  | succ n ih =>
    rw [List.range_succ, List.count_append, ih, List.count_singleton]
    by_cases h2 : i = n
    · subst h2
      simp
    · have hne : (n == i) = false := beq_eq_false_iff_ne.mpr (fun hh => h2 hh.symm)
      rw [hne]
      by_cases h : i < n
      · simp [h, Nat.lt_succ_of_lt h]
      · have h3 : ¬ i < n + 1 := by omega
        simp [h, h3]

lemma shutdown_shape (app : AppData) (hf : app.fout_open = true)
    (hg : app.fin_open = true) :
    shutdown app =
      [Event.dec_close, Event.free_framebuffers_array]
        ++ (List.range app.num_framebuffers).map Event.dealloc_framebuffer
        ++ [Event.free_dmabuffer_array, Event.dealloc_bitstream_buffer, Event.dec_unload,
            Event.h264_cleanup, Event.close_output_file, Event.close_input_file] := by
  unfold shutdown
  rw [hf, hg]
  simp

lemma shutdown_close_count (app : AppData) :
    (shutdown app).countP is_close_event = 1 := by
  cases hf : app.fout_open <;> cases hg : app.fin_open <;>
    simp [shutdown, hf, hg, List.countP_append, List.countP_map, List.countP_cons,
      is_close_event, Function.comp]

lemma shutdown_dealloc_at (app : AppData) (i : Nat) :
    (shutdown app).countP (is_dealloc_at i) =
      (if i < app.num_framebuffers then 1 else 0) := by
  have hcr : (List.range app.num_framebuffers).countP (fun j => j == i) =
      (if i < app.num_framebuffers then 1 else 0) :=
    count_range_eq i app.num_framebuffers
  have hfun : (is_dealloc_at i ∘ Event.dealloc_framebuffer) = (fun j => j == i) := rfl
  cases hf : app.fout_open <;> cases hg : app.fin_open <;>
    simp [shutdown, hf, hg, List.countP_append, List.countP_map, List.countP_cons,
      is_dealloc_at, hfun, hcr]

lemma mem_shutdown {app : AppData} {ev : Event} (h : ev ∈ shutdown app) :
    ev = Event.dec_close ∨ ev = Event.free_framebuffers_array ∨
    (∃ i, ev = Event.dealloc_framebuffer i) ∨ ev = Event.free_dmabuffer_array ∨
    ev = Event.dealloc_bitstream_buffer ∨ ev = Event.dec_unload ∨
    ev = Event.h264_cleanup ∨ ev = Event.close_output_file ∨
    ev = Event.close_input_file := by
  unfold shutdown at h
  rcases List.mem_append.mp h with h1 | h1
  · rcases List.mem_append.mp h1 with h2 | h2
    · rcases List.mem_append.mp h2 with h3 | h3
      · rcases List.mem_append.mp h3 with h4 | h4
        · simp only [List.mem_cons, List.not_mem_nil, or_false] at h4
          rcases h4 with rfl | rfl
          · exact Or.inl rfl
          · exact Or.inr (Or.inl rfl)
        · rw [List.mem_map] at h4
          obtain ⟨i, _, rfl⟩ := h4
          exact Or.inr (Or.inr (Or.inl ⟨i, rfl⟩))
      · simp only [List.mem_cons, List.not_mem_nil, or_false] at h3
        rcases h3 with rfl | rfl | rfl | rfl
        · exact Or.inr (Or.inr (Or.inr (Or.inl rfl)))
        · exact Or.inr (Or.inr (Or.inr (Or.inr (Or.inl rfl))))
        · exact Or.inr (Or.inr (Or.inr (Or.inr (Or.inr (Or.inl rfl)))))
        · exact Or.inr (Or.inr (Or.inr (Or.inr (Or.inr (Or.inr (Or.inl rfl))))))
    · split at h2
      · simp only [List.mem_cons, List.not_mem_nil, or_false] at h2
        subst h2
        exact Or.inr (Or.inr (Or.inr (Or.inr (Or.inr (Or.inr (Or.inr (Or.inl rfl)))))))
      · cases h2
  · split at h1
    · simp only [List.mem_cons, List.not_mem_nil, or_false] at h1
      subst h1
      exact Or.inr (Or.inr (Or.inr (Or.inr (Or.inr (Or.inr (Or.inr (Or.inr rfl)))))))
    · cases h1

lemma submitted_data_contexts_shutdown (app : AppData) :
    submitted_data_contexts (shutdown app) = [] := by
  unfold submitted_data_contexts
  rw [List.filterMap_eq_nil_iff]
  intro a ha
  rcases mem_shutdown ha with rfl | rfl | ⟨i, rfl⟩ | rfl | rfl | rfl | rfl | rfl |
    rfl <;> rfl

lemma alloc_indices_shutdown (app : AppData) : alloc_indices (shutdown app) = [] := by
  unfold alloc_indices
  rw [List.filterMap_eq_nil_iff]
  intro a ha
  rcases mem_shutdown ha with rfl | rfl | ⟨i, rfl⟩ | rfl | rfl | rfl | rfl | rfl |
    rfl <;> rfl

lemma countP_shutdown_zero (app : AppData) (p : Event → Bool)
    (h1 : p Event.dec_close = false) (h2 : p Event.free_framebuffers_array = false)
    (h3 : ∀ i, p (Event.dealloc_framebuffer i) = false)
    (h4 : p Event.free_dmabuffer_array = false)
    (h5 : p Event.dealloc_bitstream_buffer = false) (h6 : p Event.dec_unload = false)
    (h7 : p Event.h264_cleanup = false) (h8 : p Event.close_output_file = false)
    (h9 : p Event.close_input_file = false) :
    (shutdown app).countP p = 0 := by
  rw [List.countP_eq_zero]
  intro a ha
  rcases mem_shutdown ha with rfl | rfl | ⟨i, rfl⟩ | rfl | rfl | rfl | rfl | rfl |
    rfl <;> simp [h1, h2, h3, h4, h5, h6, h7, h8, h9]

lemma shutdown_no_mark (app : AppData) : (shutdown app).countP is_mark_event = 0 :=
  countP_shutdown_zero app _ rfl rfl (fun _ => rfl) rfl rfl rfl rfl rfl rfl

lemma shutdown_no_fetch (app : AppData) : (shutdown app).countP is_fetch_event = 0 :=
  countP_shutdown_zero app _ rfl rfl (fun _ => rfl) rfl rfl rfl rfl rfl rfl

lemma shutdown_no_enable (app : AppData) : (shutdown app).countP is_enable_event = 0 :=
  countP_shutdown_zero app _ rfl rfl (fun _ => rfl) rfl rfl rfl rfl rfl rfl

lemma info_count_append (a b : List EngineStep) :
    info_count (a ++ b) = info_count a + info_count b := by
  unfold info_count
  exact List.countP_append _ a b

lemma pic_count_append (a b : List EngineStep) :
    pic_count (a ++ b) = pic_count a + pic_count b := by
  unfold pic_count
  exact List.countP_append _ a b

lemma set_drain_num (app : AppData) :
    (set_drain app).num_framebuffers = app.num_framebuffers := rfl

lemma set_drain_fin (app : AppData) : (set_drain app).fin_open = app.fin_open := rfl

lemma set_drain_fout (app : AppData) : (set_drain app).fout_open = app.fout_open := rfl

lemma set_drain_drain (app : AppData) : (set_drain app).drain = true := rfl

lemma close_imp_teardown (ev : Event) (h : is_close_event ev = true) :
    is_teardown_event ev = true := by
  cases ev <;> simp [is_close_event] at h <;> rfl

lemma dealloc_at_imp_teardown (i : Nat) (ev : Event)
    (h : is_dealloc_at i ev = true) : is_teardown_event ev = true := by
  cases ev <;> simp [is_dealloc_at] at h <;> rfl

/-! ## The claims -/

/-- C1 (counterexample): a decode step whose output code has both
`DROPPED` and `DECODED_PICTURE_AVAILABLE` set does not retrieve the
dropped unit's context — the `DROPPED` branch is an `else if` behind
the picture branch, so the flags are not handled independently. -/
theorem c1_counterexample :
    dropPicStep.output_code.dropped = true ∧
    dropPicStep.output_code.decoded_picture_available = true ∧
    (decode_frame initialApp [7] [dropPicStep]).events.countP is_dropped_ctx_event = 0 ∧
    (decode_frame initialApp [7] [dropPicStep]).events.countP is_fetch_event = 1 := by
  decide

/-- C1 (amended): a decode step retrieves the dropped unit's context
exactly when the step reaches the engine, the `DROPPED` flag is set,
and `DECODED_PICTURE_AVAILABLE` is not also set (the picture branch
takes precedence over the drop branch). -/
theorem c1_dropped_context_retrieval (app : AppData) (src : List Nat)
    (engs : List EngineStep) :
    (decode_frame app src engs).events.countP is_dropped_ctx_event =
      (if makes_decode_call app src &&
          (engs.headD defaultEngineStep).output_code.dropped &&
          !(engs.headD defaultEngineStep).output_code.decoded_picture_available
       then 1 else 0) := by
  rcases decode_frame_cases app src engs with ⟨hd, h⟩ | ⟨hd, hsrc, h⟩ |
    ⟨rest, hd, hsrc, h⟩ | ⟨sz, rest, hd, hsrc, hz, h⟩ <;> rw [h]
  · rw [decode_core_events]
    simp only [List.countP_cons, List.countP_append, pool_no_dropped, picdrop_dropped]
    cases hp : (engs.headD defaultEngineStep).output_code.decoded_picture_available <;>
      cases hq : (engs.headD defaultEngineStep).output_code.dropped <;>
        simp [makes_decode_call, hd, hp, hq, is_dropped_ctx_event]
  · subst hsrc; simp [makes_decode_call, hd]
  · subst hsrc; simp [makes_decode_call, hd]
  · subst hsrc
    rw [decode_core_events]
    simp only [List.countP_cons, List.countP_append, pool_no_dropped, picdrop_dropped]
    cases hp : (engs.headD defaultEngineStep).output_code.decoded_picture_available <;>
      cases hq : (engs.headD defaultEngineStep).output_code.dropped <;>
        simp [makes_decode_call, hd, hz, hp, hq, is_dropped_ctx_event]

/-- C2: evaluating the pool build at the failing input of the claim
(allocation of the third of five framebuffers fails): the C code does
not check the allocation result, so the build proceeds to fill and
register all five framebuffers, releases nothing, reports no error, and
the step returns `RETVAL_OK` so that decoding continues. -/
theorem c2_alloc_failure_ignored :
    infoFailStep.alloc_ok 2 = false ∧
    infoFailStep.initial_info.min_num_required_framebuffers = 5 ∧
    Event.alloc_framebuffer 2 1000 16 false ∈
      (decode_frame initialApp [7] [infoFailStep]).events ∧
    Event.register_framebuffers 5 ∈ (decode_frame initialApp [7] [infoFailStep]).events ∧
    (decode_frame initialApp [7] [infoFailStep]).events.countP is_teardown_event = 0 ∧
    (decode_frame initialApp [7] [infoFailStep]).ret = Retval.ok := by
  decide

/-- C3: `decode_frame` never returns `RETVAL_ERROR`; the return code of
`imx_vpu_dec_decode` is discarded, so the step result does not depend
on it; and a dropped frame alone yields `RETVAL_OK` (not fatal) while
its context is still retrieved. -/
theorem c3_engine_failure_never_fatal :
    (∀ (app : AppData) (src : List Nat) (engs : List EngineStep),
      (decode_frame app src engs).ret ≠ Retval.error) ∧
    (∀ (app : AppData) (src : List Nat) (e : EngineStep) (rest : List EngineStep)
      (b : Bool),
      (decode_frame app src ({ e with decode_ret_ok := b } :: rest)).ret =
        (decode_frame app src (e :: rest)).ret) ∧
    ((decode_frame initialApp [7] [{ eosStep with decode_ret_ok := false }]).events =
      (decode_frame initialApp [7] [eosStep]).events) ∧
    (decode_frame initialApp [7] [dropOnlyStep]).ret = Retval.ok ∧
    (decode_frame initialApp [7] [dropOnlyStep]).events.countP is_dropped_ctx_event
      = 1 := by
  refine ⟨?_, ?_, by decide, by decide, by decide⟩
  · intro app src engs
    rw [decode_frame_ret]
    split
    · split <;> simp
    · simp
  · intro app src e rest b
    rw [decode_frame_ret, decode_frame_ret]
    cases e
    rfl

/-- C3 (witness): the theorem applied at a concrete step. -/
theorem c3_witness :
    (decode_frame initialApp [7] [eosStep]).ret ≠ Retval.error :=
  c3_engine_failure_never_fatal.1 initialApp [7] [eosStep]

/-- C4 (counterexample): a drain-mode step — which submits a unit with
a NULL context — still increments the frame-context counter. -/
theorem c4_counterexample :
    drainApp.drain = true ∧ drainApp.frame_id_counter = 100 ∧
    (decode_frame drainApp [] [defaultEngineStep]).app.frame_id_counter = 101 ∧
    Event.decode_call drain_frame ∈
      (decode_frame drainApp [] [defaultEngineStep]).events := by
  decide

/-- C4 (amended): the frame-context counter is incremented (mod `2^32`)
exactly once per step that reaches the engine — including drain-mode
steps — and is never otherwise modified; drain submissions carry no
context, and each non-drain submission carries the pre-increment
counter value as its context. -/
theorem c4_counter_increment (app : AppData) (src : List Nat)
    (engs : List EngineStep) :
    ((decode_frame app src engs).app.frame_id_counter =
      (if makes_decode_call app src then (app.frame_id_counter + 1) % U32
       else app.frame_id_counter)) ∧
    (app.drain = true →
      submitted_data_contexts (decode_frame app src engs).events = []) ∧
    (app.drain = false → makes_decode_call app src = true →
      submitted_data_contexts (decode_frame app src engs).events =
        [app.frame_id_counter]) := by
  refine ⟨decode_frame_counter app src engs, ?_, ?_⟩
  · intro hd
    rcases decode_frame_facts app src engs with ⟨_, _, _, _, _, _, hsub, _⟩ |
      ⟨_, _, _, hevs⟩
    · rw [hsub, if_pos hd]
    · rw [hevs]
      rfl
  · intro hd hmk
    rcases decode_frame_facts app src engs with ⟨_, _, _, _, _, _, hsub, _⟩ |
      ⟨hmk', _, _, _⟩
    · rw [hsub, if_neg (by simp [hd])]
    · rw [hmk] at hmk'
      cases hmk'

/-- C4 (witness): the theorem applied at a concrete drain-mode step. -/
theorem c4_witness :
    drainApp.drain = true ∧
    (decode_frame drainApp [] [defaultEngineStep]).app.frame_id_counter =
      (if makes_decode_call drainApp [] then (drainApp.frame_id_counter + 1) % U32
       else drainApp.frame_id_counter) ∧
    submitted_data_contexts (decode_frame drainApp [] [defaultEngineStep]).events = [] :=
  ⟨by decide, (c4_counter_increment drainApp [] [defaultEngineStep]).1,
    (c4_counter_increment drainApp [] [defaultEngineStep]).2.1 (by decide)⟩

/-- C5 (counterexample): in a spec-legal session where
`INITIAL_INFO_AVAILABLE` recurs (first pool of two buffers, rebuild
with one), the trace allocates framebuffer index 1 once but never
deallocates it — the rebuild overwrites the pool pointers and leaks
the first pool — refuting "releases every acquired resource exactly
once", even though teardown itself still runs exactly once. -/
theorem c5_counterexample :
    info_count [infoOkStep, infoMin1Step, eosStep] = 2 ∧
    alloc_indices (mainRun okInit [5, 6] [infoOkStep, infoMin1Step, eosStep]).2 =
      [0, 1, 0] ∧
    (mainRun okInit [5, 6] [infoOkStep, infoMin1Step, eosStep]).2.countP
      (is_dealloc_at 1) = 0 ∧
    (mainRun okInit [5, 6] [infoOkStep, infoMin1Step, eosStep]).2.countP
      is_close_event = 1 := by
  decide

/-- C5 (amended): in every completed run past a successful `init`, the
trace ends with exactly one `shutdown`, whose calls come in the fixed
order engine close, pool release (framebuffer array free and
per-buffer DMA deallocation), scratch bitstream-buffer release, engine
unload; no teardown call occurs anywhere else (on every path through
`main`, normal or not, since the decode loops never emit teardown
calls); the decoder is closed exactly once, and teardown releases each
buffer of the most recent framebuffer pool exactly once.  Only when
the engine reports initial info at most once (no mid-stream pool
rebuild) is that every acquired resource exactly once; a rebuild
overwrites the pool pointers and the earlier pool's buffers are never
released. -/
theorem c5_teardown_once_fixed_order (ii : InitInputs) (src : List Nat)
    (engs : List EngineStep) (hinit : init_ret ii ≠ Retval.error) :
    ∃ pre appF,
      (mainRun ii src engs).2 = pre ++ shutdown appF ∧
      pre.countP is_teardown_event = 0 ∧
      shutdown appF =
        [Event.dec_close, Event.free_framebuffers_array]
          ++ (List.range appF.num_framebuffers).map Event.dealloc_framebuffer
          ++ [Event.free_dmabuffer_array, Event.dealloc_bitstream_buffer,
              Event.dec_unload, Event.h264_cleanup, Event.close_output_file,
              Event.close_input_file] ∧
      (info_count engs ≤ 1 →
        alloc_indices pre = List.range appF.num_framebuffers) ∧
      (mainRun ii src engs).2.countP is_close_event = 1 ∧
      (∀ i, (mainRun ii src engs).2.countP (is_dealloc_at i) =
        (if i < appF.num_framebuffers then 1 else 0)) := by
  rw [mainRun_eq ii src engs hinit]
  refine ⟨init_events ii ++ (run_loop1 initialApp src engs).events
      ++ [Event.enable_drain_mode true]
      ++ (run_loop2 (set_drain (run_loop1 initialApp src engs).app)
            (run_loop1 initialApp src engs).src
            (run_loop1 initialApp src engs).engs).events,
    (run_loop2 (set_drain (run_loop1 initialApp src engs).app)
      (run_loop1 initialApp src engs).src (run_loop1 initialApp src engs).engs).app,
    rfl, ?_, ?_, ?_, ?_, ?_⟩
  · rw [List.countP_append, List.countP_append, List.countP_append,
      run_loop1_no_teardown, run_loop2_no_teardown, init_ret_ok_events ii hinit]
    rfl
  · apply shutdown_shape
    · rw [(run_loop2_preserve _ _ _).2.2, set_drain_fout,
        (run_loop1_preserve _ _ _).2.2]
      rfl
    · rw [(run_loop2_preserve _ _ _).2.1, set_drain_fin,
        (run_loop1_preserve _ _ _).2.1]
      rfl
  · intro hinfo
    obtain ⟨u1, hu1, _, _, himp1a, himp2a⟩ := run_loop1_consumed src initialApp engs
    obtain ⟨u2, hu2, _, _, himp1b, himp2b⟩ :=
      run_loop2_consumed (run_loop1 initialApp src engs).engs
        (set_drain (run_loop1 initialApp src engs).app)
        (run_loop1 initialApp src engs).src
    have hsplit1 : info_count engs =
        info_count u1 + info_count (run_loop1 initialApp src engs).engs := by
      conv_lhs => rw [hu1]
      rw [info_count_append]
    have hsplit2 : info_count (run_loop1 initialApp src engs).engs =
        info_count u2 +
          info_count (run_loop2 (set_drain (run_loop1 initialApp src engs).app)
            (run_loop1 initialApp src engs).src
            (run_loop1 initialApp src engs).engs).engs := by
      conv_lhs => rw [hu2]
      rw [info_count_append]
    have hinit_alloc : alloc_indices (init_events ii) = [] := by
      rw [init_ret_ok_events ii hinit]
      rfl
    rw [alloc_indices_append, alloc_indices_append, alloc_indices_append, hinit_alloc]
    by_cases hz1 : info_count u1 = 0
    · obtain ⟨hp1, hn1⟩ := himp1a hz1
      have ha1 : alloc_indices (run_loop1 initialApp src engs).events = [] :=
        alloc_indices_eq_nil_of_no_pool hp1
      have hnum1 : (run_loop1 initialApp src engs).app.num_framebuffers = 0 :=
        hn1.trans rfl
      have hz2 : info_count u2 ≤ 1 := by omega
      have ha2 := himp2b (by rw [set_drain_num]; exact hnum1) hz2
      rw [ha1, ha2]
      simp [alloc_indices]
    · have h1eq : info_count u1 = 1 ∧ info_count u2 = 0 := by omega
      have ha1 := himp2a rfl (by omega)
      obtain ⟨hp2, hn2⟩ := himp1b h1eq.2
      have ha2 : alloc_indices (run_loop2 (set_drain (run_loop1 initialApp src engs).app)
          (run_loop1 initialApp src engs).src
          (run_loop1 initialApp src engs).engs).events = [] :=
        alloc_indices_eq_nil_of_no_pool hp2
      rw [ha1, ha2, hn2, set_drain_num]
      simp [alloc_indices]
  · have hc1 : (run_loop1 initialApp src engs).events.countP is_close_event = 0 := by
      have h2 := run_loop1_no_teardown src initialApp engs
      have h3 : (run_loop1 initialApp src engs).events.countP is_close_event ≤
          (run_loop1 initialApp src engs).events.countP is_teardown_event :=
        List.countP_mono_left (fun x _ hx => close_imp_teardown x hx)
      omega
    have hc2 : (run_loop2 (set_drain (run_loop1 initialApp src engs).app)
        (run_loop1 initialApp src engs).src
        (run_loop1 initialApp src engs).engs).events.countP is_close_event = 0 := by
      have h2 := run_loop2_no_teardown (run_loop1 initialApp src engs).engs
        (set_drain (run_loop1 initialApp src engs).app)
        (run_loop1 initialApp src engs).src
      have h3 : (run_loop2 (set_drain (run_loop1 initialApp src engs).app)
          (run_loop1 initialApp src engs).src
          (run_loop1 initialApp src engs).engs).events.countP is_close_event ≤
          (run_loop2 (set_drain (run_loop1 initialApp src engs).app)
            (run_loop1 initialApp src engs).src
            (run_loop1 initialApp src engs).engs).events.countP is_teardown_event :=
        List.countP_mono_left (fun x _ hx => close_imp_teardown x hx)
      omega
    rw [List.countP_append, List.countP_append, List.countP_append,
      List.countP_append, hc1, hc2, shutdown_close_count, init_ret_ok_events ii hinit]
    rfl
  · intro i
    have hc1 : (run_loop1 initialApp src engs).events.countP (is_dealloc_at i) = 0 := by
      have h2 := run_loop1_no_teardown src initialApp engs
      have h3 : (run_loop1 initialApp src engs).events.countP (is_dealloc_at i) ≤
          (run_loop1 initialApp src engs).events.countP is_teardown_event :=
        List.countP_mono_left (fun x _ hx => dealloc_at_imp_teardown i x hx)
      omega
    have hc2 : (run_loop2 (set_drain (run_loop1 initialApp src engs).app)
        (run_loop1 initialApp src engs).src
        (run_loop1 initialApp src engs).engs).events.countP (is_dealloc_at i) = 0 := by
      have h2 := run_loop2_no_teardown (run_loop1 initialApp src engs).engs
        (set_drain (run_loop1 initialApp src engs).app)
        (run_loop1 initialApp src engs).src
      have h3 : (run_loop2 (set_drain (run_loop1 initialApp src engs).app)
          (run_loop1 initialApp src engs).src
          (run_loop1 initialApp src engs).engs).events.countP (is_dealloc_at i) ≤
          (run_loop2 (set_drain (run_loop1 initialApp src engs).app)
            (run_loop1 initialApp src engs).src
            (run_loop1 initialApp src engs).engs).events.countP is_teardown_event :=
        List.countP_mono_left (fun x _ hx => dealloc_at_imp_teardown i x hx)
      omega
    rw [List.countP_append, List.countP_append, List.countP_append,
      List.countP_append, hc1, hc2, shutdown_dealloc_at, init_ret_ok_events ii hinit]
    simp [is_dealloc_at, List.countP_cons]

/-- C5 (witness): the theorem applied to a run with one pool build of
two framebuffers. -/
theorem c5_witness :
    init_ret okInit ≠ Retval.error ∧
    ∃ pre appF,
      (mainRun okInit [5] [infoOkStep, eosStep]).2 = pre ++ shutdown appF ∧
      pre.countP is_teardown_event = 0 ∧
      shutdown appF =
        [Event.dec_close, Event.free_framebuffers_array]
          ++ (List.range appF.num_framebuffers).map Event.dealloc_framebuffer
          ++ [Event.free_dmabuffer_array, Event.dealloc_bitstream_buffer,
              Event.dec_unload, Event.h264_cleanup, Event.close_output_file,
              Event.close_input_file] ∧
      (info_count [infoOkStep, eosStep] ≤ 1 →
        alloc_indices pre = List.range appF.num_framebuffers) ∧
      (mainRun okInit [5] [infoOkStep, eosStep]).2.countP is_close_event = 1 ∧
      (∀ i, (mainRun okInit [5] [infoOkStep, eosStep]).2.countP (is_dealloc_at i) =
        (if i < appF.num_framebuffers then 1 else 0)) :=
  ⟨by decide,
    c5_teardown_once_fixed_order okInit [5] [infoOkStep, eosStep] (by decide)⟩

/-- C6: across one session the contexts attached to the non-drain
submissions are strictly increasing, pairwise distinct and non-zero
(the counter starts from the non-zero base 100), provided the
`unsigned int` counter cannot wrap within the session (the source is
shorter than `2^32 - 100` units). -/
theorem c6_contexts_strictly_increasing (ii : InitInputs) (src : List Nat)
    (engs : List EngineStep) (hinit : init_ret ii ≠ Retval.error)
    (hlen : 100 + src.length ≤ U32) :
    List.Chain' (· < ·) (submitted_data_contexts (mainRun ii src engs).2) ∧
    List.Pairwise (· ≠ ·) (submitted_data_contexts (mainRun ii src engs).2) ∧
    (∀ x ∈ submitted_data_contexts (mainRun ii src engs).2, x ≠ 0) := by
  rw [mainRun_eq ii src engs hinit]
  obtain ⟨m, hmle, hm⟩ := run_loop1_contexts src initialApp engs rfl (by decide) hlen
  have hm' : submitted_data_contexts (run_loop1 initialApp src engs).events =
      List.range' 100 m := hm
  have h2 := run_loop2_submitted (run_loop1 initialApp src engs).engs
    (set_drain (run_loop1 initialApp src engs).app)
    (run_loop1 initialApp src engs).src rfl
  have hinit_sub : submitted_data_contexts (init_events ii) = [] := by
    rw [init_ret_ok_events ii hinit]
    rfl
  have htr : submitted_data_contexts
      (init_events ii ++ (run_loop1 initialApp src engs).events
        ++ [Event.enable_drain_mode true]
        ++ (run_loop2 (set_drain (run_loop1 initialApp src engs).app)
              (run_loop1 initialApp src engs).src
              (run_loop1 initialApp src engs).engs).events
        ++ shutdown (run_loop2 (set_drain (run_loop1 initialApp src engs).app)
              (run_loop1 initialApp src engs).src
              (run_loop1 initialApp src engs).engs).app) = List.range' 100 m := by
    have hen : submitted_data_contexts [Event.enable_drain_mode true] = [] := rfl
    rw [submitted_data_contexts_append, submitted_data_contexts_append,
      submitted_data_contexts_append, submitted_data_contexts_append, hinit_sub,
      hm', h2, submitted_data_contexts_shutdown, hen]
    simp
  refine ⟨?_, ?_, ?_⟩
  · rw [htr]
    exact (List.pairwise_lt_range' 100 m).chain'
  · rw [htr]
    exact (List.pairwise_lt_range' 100 m).imp Nat.ne_of_lt
  · intro x hx
    rw [htr] at hx
    have hb := (List.mem_range'_1.mp hx).1
    omega

/-- C6 (witness): the theorem applied to a three-unit session. -/
theorem c6_witness :
    init_ret okInit ≠ Retval.error ∧ 100 + ([3, 4, 5] : List Nat).length ≤ U32 ∧
    (List.Chain' (· < ·)
      (submitted_data_contexts (mainRun okInit [3, 4, 5] [eosStep]).2) ∧
    List.Pairwise (· ≠ ·)
      (submitted_data_contexts (mainRun okInit [3, 4, 5] [eosStep]).2) ∧
    (∀ x ∈ submitted_data_contexts (mainRun okInit [3, 4, 5] [eosStep]).2, x ≠ 0)) :=
  ⟨by decide, by decide,
    c6_contexts_strictly_increasing okInit [3, 4, 5] [eosStep] (by decide) (by decide)⟩

/-- C7: drain mode is entered exactly once, after the regular loop
ends; when every source unit is nonempty and the engine does not
report `EOS` during the regular loop (one response per unit), the
source is exhausted at that point; the drain flag is never cleared
again (no `enable_drain_mode(0)` call exists and the final state still
has it set), and every frame submitted while drain mode is active is
the empty drain frame with no data, no codec bytes and no context. -/
theorem c7_drain_discipline (ii : InitInputs) (src : List Nat)
    (eng1 eng2 : List EngineStep) (hinit : init_ret ii ≠ Retval.error)
    (hpos : ∀ s ∈ src, s ≠ 0) (hlen : eng1.length = src.length)
    (hnoeos : ∀ e ∈ eng1, e.output_code.eos = false) :
    (run_loop1 initialApp src (eng1 ++ eng2)).src = [] ∧
    (run_loop2 (set_drain (run_loop1 initialApp src (eng1 ++ eng2)).app)
      (run_loop1 initialApp src (eng1 ++ eng2)).src
      (run_loop1 initialApp src (eng1 ++ eng2)).engs).app.drain = true ∧
    (∀ f, Event.decode_call f ∈
        (run_loop2 (set_drain (run_loop1 initialApp src (eng1 ++ eng2)).app)
          (run_loop1 initialApp src (eng1 ++ eng2)).src
          (run_loop1 initialApp src (eng1 ++ eng2)).engs).events →
      f = drain_frame) ∧
    (mainRun ii src (eng1 ++ eng2)).2.countP is_enable_event = 1 ∧
    Event.enable_drain_mode false ∉ (mainRun ii src (eng1 ++ eng2)).2 := by
  have hca := run_loop1_consumes_all src initialApp eng1 eng2 rfl hpos hlen hnoeos
  refine ⟨hca.1, ?_, ?_, ?_, ?_⟩
  · rw [(run_loop2_preserve _ _ _).1, set_drain_drain]
  · exact run_loop2_drain_calls _ _ _ rfl
  · rw [mainRun_eq _ _ _ hinit]
    rw [List.countP_append, List.countP_append, List.countP_append,
      List.countP_append, run_loop1_no_enable, run_loop2_no_enable,
      shutdown_no_enable, init_ret_ok_events ii hinit]
    rfl
  · rw [mainRun_eq _ _ _ hinit]
    intro hmem
    rcases List.mem_append.mp hmem with h1 | h1
    · rcases List.mem_append.mp h1 with h2 | h2
      · rcases List.mem_append.mp h2 with h3 | h3
        · rcases List.mem_append.mp h3 with h4 | h4
          · rw [init_ret_ok_events ii hinit] at h4
            simp at h4
          · exact (List.countP_eq_zero.mp
              (run_loop1_no_enable src initialApp (eng1 ++ eng2)) _ h4) rfl
        · simp at h3
      · exact (List.countP_eq_zero.mp (run_loop2_no_enable _ _ _) _ h2) rfl
    · rcases mem_shutdown h1 with he | he | ⟨i, he⟩ | he | he | he | he | he | he <;>
        exact Event.noConfusion he

/-- C7 (witness): the theorem applied to a one-unit session. -/
theorem c7_witness :
    init_ret okInit ≠ Retval.error ∧ (∀ s ∈ ([4] : List Nat), s ≠ 0) ∧
    ([defaultEngineStep] : List EngineStep).length = ([4] : List Nat).length ∧
    (∀ e ∈ ([defaultEngineStep] : List EngineStep), e.output_code.eos = false) ∧
    ((run_loop1 initialApp [4] ([defaultEngineStep] ++ [eosStep])).src = [] ∧
    (run_loop2 (set_drain (run_loop1 initialApp [4]
        ([defaultEngineStep] ++ [eosStep])).app)
      (run_loop1 initialApp [4] ([defaultEngineStep] ++ [eosStep])).src
      (run_loop1 initialApp [4] ([defaultEngineStep] ++ [eosStep])).engs).app.drain
        = true ∧
    (∀ f, Event.decode_call f ∈
        (run_loop2 (set_drain (run_loop1 initialApp [4]
            ([defaultEngineStep] ++ [eosStep])).app)
          (run_loop1 initialApp [4] ([defaultEngineStep] ++ [eosStep])).src
          (run_loop1 initialApp [4] ([defaultEngineStep] ++ [eosStep])).engs).events →
      f = drain_frame) ∧
    (mainRun okInit [4] ([defaultEngineStep] ++ [eosStep])).2.countP is_enable_event
      = 1 ∧
    Event.enable_drain_mode false ∉
      (mainRun okInit [4] ([defaultEngineStep] ++ [eosStep])).2) :=
  ⟨by decide, by decide, by decide, by decide,
    c7_drain_discipline okInit [4] [defaultEngineStep] [eosStep] (by decide)
      (by decide) (by decide) (by decide)⟩

/-- A framebuffer is marked displayed by `decode_core` only if it is
the framebuffer of the picture fetched in that same step, whose fetch
the step's events also contain. -/
lemma decode_core_mark_owned (app : AppData) (src2 : List Nat)
    (engs : List EngineStep) (f : EncodedFrame) (ok0 : Bool) (i : Nat)
    (h : Event.mark_framebuffer_displayed i ∈ (decode_core app src2 engs f ok0).events) :
    i = (engs.headD defaultEngineStep).picture.framebuffer_index ∧
    Event.get_decoded_picture (engs.headD defaultEngineStep).picture.context i ∈
      (decode_core app src2 engs f ok0).events := by
  rw [decode_core_events] at h ⊢
  rcases List.mem_cons.mp h with hea | hmem
  · exact Event.noConfusion hea
  · rcases List.mem_append.mp hmem with hp | hp
    · rcases mem_pool_events hp with ⟨j, he⟩ | he | ⟨j, s2, a2, b2, he⟩ |
        ⟨j, c2, he⟩ | ⟨n, he⟩ <;> exact Event.noConfusion he
    · cases hpic : (engs.headD defaultEngineStep).output_code.decoded_picture_available
      · unfold picdrop_events at hp
        simp only [hpic] at hp
        cases hdr : (engs.headD defaultEngineStep).output_code.dropped <;>
          simp only [hdr] at hp <;> simp at hp
      · unfold picdrop_events at hp
        simp only [hpic] at hp
        simp at hp
        subst hp
        refine ⟨by rw [List.headD_eq_head?_getD],
          List.mem_cons_of_mem _ (List.mem_append_right _ ?_)⟩
        unfold picdrop_events
        simp only [hpic]
        simp

/-- A framebuffer is marked displayed in a step only if it is the
framebuffer of the picture fetched in that same step, which the step's
events also contain. -/
lemma decode_frame_mark_owned (app : AppData) (src : List Nat) (engs : List EngineStep)
    (i : Nat)
    (h : Event.mark_framebuffer_displayed i ∈ (decode_frame app src engs).events) :
    i = (engs.headD defaultEngineStep).picture.framebuffer_index ∧
    Event.get_decoded_picture (engs.headD defaultEngineStep).picture.context i ∈
      (decode_frame app src engs).events := by
  rcases decode_frame_cases app src engs with ⟨_, hc⟩ | ⟨_, _, hc⟩ | ⟨rest, _, _, hc⟩ |
    ⟨sz, rest, _, _, _, hc⟩
  · rw [hc] at h ⊢
    exact decode_core_mark_owned _ _ _ _ _ _ h
  · rw [hc] at h
    cases h
  · rw [hc] at h
    cases h
  · rw [hc] at h ⊢
    exact decode_core_mark_owned _ _ _ _ _ _ h

/-- C8: over every run, the number of `mark_framebuffer_displayed`
calls equals the number of `get_decoded_picture` fetches and never
exceeds the number of `DECODED_PICTURE_AVAILABLE` responses of the
engine; each decode step fetches the decoded picture at most once; and
a slot is marked displayed only in the step that fetched that same
slot's picture (consumer ownership). -/
theorem c8_mark_displayed_discipline (ii : InitInputs) (src : List Nat)
    (engs : List EngineStep) (hinit : init_ret ii ≠ Retval.error) :
    (mainRun ii src engs).2.countP is_mark_event =
      (mainRun ii src engs).2.countP is_fetch_event ∧
    (mainRun ii src engs).2.countP is_fetch_event ≤ pic_count engs ∧
    (∀ (app2 : AppData) (src2 : List Nat) (engs2 : List EngineStep),
      (decode_frame app2 src2 engs2).events.countP is_fetch_event ≤ 1) ∧
    (∀ (app2 : AppData) (src2 : List Nat) (engs2 : List EngineStep) (i : Nat),
      Event.mark_framebuffer_displayed i ∈ (decode_frame app2 src2 engs2).events →
        i = (engs2.headD defaultEngineStep).picture.framebuffer_index ∧
        Event.get_decoded_picture (engs2.headD defaultEngineStep).picture.context i ∈
          (decode_frame app2 src2 engs2).events) := by
  obtain ⟨u1, hu1, hf1, hm1, _, _⟩ := run_loop1_consumed src initialApp engs
  obtain ⟨u2, hu2, hf2, hm2, _, _⟩ :=
    run_loop2_consumed (run_loop1 initialApp src engs).engs
      (set_drain (run_loop1 initialApp src engs).app)
      (run_loop1 initialApp src engs).src
  have hsplit1 : pic_count engs =
      pic_count u1 + pic_count (run_loop1 initialApp src engs).engs := by
    conv_lhs => rw [hu1]
    rw [pic_count_append]
  have hsplit2 : pic_count (run_loop1 initialApp src engs).engs =
      pic_count u2 +
        pic_count (run_loop2 (set_drain (run_loop1 initialApp src engs).app)
          (run_loop1 initialApp src engs).src
          (run_loop1 initialApp src engs).engs).engs := by
    conv_lhs => rw [hu2]
    rw [pic_count_append]
  have hinit_mark : (init_events ii).countP is_mark_event = 0 := by
    rw [init_ret_ok_events ii hinit]
    rfl
  have hinit_fetch : (init_events ii).countP is_fetch_event = 0 := by
    rw [init_ret_ok_events ii hinit]
    rfl
  rw [mainRun_eq ii src engs hinit]
  refine ⟨?_, ?_, ?_, ?_⟩
  · rw [List.countP_append, List.countP_append, List.countP_append, List.countP_append,
      List.countP_append, List.countP_append, List.countP_append, List.countP_append,
      hinit_mark, hinit_fetch, hm1, hm2, shutdown_no_mark, shutdown_no_fetch]
    rfl
  · rw [List.countP_append, List.countP_append, List.countP_append, List.countP_append,
      hinit_fetch, hf1, hf2, shutdown_no_fetch]
    have hen : ([Event.enable_drain_mode true] : List Event).countP is_fetch_event
        = 0 := rfl
    rw [hen]
    omega
  · intro app2 src2 engs2
    rcases decode_frame_facts app2 src2 engs2 with ⟨_, _, hfetch, _⟩ | ⟨_, _, _, hevs⟩
    · rw [hfetch]
      split <;> simp
    · rw [hevs]
      simp
  · intro app2 src2 engs2 i h
    exact decode_frame_mark_owned app2 src2 engs2 i h

/-- C8 (witness): the theorem applied to a session delivering one
picture. -/
theorem c8_witness :
    init_ret okInit ≠ Retval.error ∧
    ((mainRun okInit [6] [picStep, eosStep]).2.countP is_mark_event =
      (mainRun okInit [6] [picStep, eosStep]).2.countP is_fetch_event ∧
    (mainRun okInit [6] [picStep, eosStep]).2.countP is_fetch_event ≤
      pic_count [picStep, eosStep] ∧
    (∀ (app2 : AppData) (src2 : List Nat) (engs2 : List EngineStep),
      (decode_frame app2 src2 engs2).events.countP is_fetch_event ≤ 1) ∧
    (∀ (app2 : AppData) (src2 : List Nat) (engs2 : List EngineStep) (i : Nat),
      Event.mark_framebuffer_displayed i ∈ (decode_frame app2 src2 engs2).events →
        i = (engs2.headD defaultEngineStep).picture.framebuffer_index ∧
        Event.get_decoded_picture (engs2.headD defaultEngineStep).picture.context i ∈
          (decode_frame app2 src2 engs2).events)) :=
  ⟨by decide, c8_mark_displayed_discipline okInit [6] [picStep, eosStep] (by decide)⟩

/-- C9: the process exits 1 on an input-file open failure, but an
engine open failure and a bitstream-buffer allocation failure are not
checked by `init`, so those runs proceed and exit 0 — contradicting the
claimed exit-code contract for those two fatal errors. -/
theorem c9_exit_codes :
    (mainRun ⟨true, false, true, true, true⟩ [] []).1 = 1 ∧
    (mainRun okInit [] [eosStep]).1 = 0 ∧
    (mainRun ⟨true, true, true, true, false⟩ [] [eosStep]).1 = 0 ∧
    (mainRun ⟨true, true, true, false, true⟩ [] [eosStep]).1 = 0 := by
  decide

/-- C10: with an empty input source (and an engine that accordingly
never reports initial info), the first decode step returns end-of-input
without calling the engine and without emitting any event, no
framebuffer pool is ever allocated, the final pool size is the
zero-initialized zero, teardown deallocates no framebuffer it did not
acquire, and the process still terminates with exit code 0. -/
theorem c10_empty_input_safe (ii : InitInputs) (engs : List EngineStep)
    (hinit : init_ret ii ≠ Retval.error)
    (hnoinfo : ∀ e ∈ engs, e.output_code.initial_info_available = false) :
    (mainRun ii [] engs).1 = 0 ∧
    run_loop1 initialApp [] engs = ⟨Retval.eos, initialApp, [], engs, []⟩ ∧
    alloc_indices (mainRun ii [] engs).2 = [] ∧
    (∀ i, (mainRun ii [] engs).2.countP (is_dealloc_at i) = 0) ∧
    (run_loop2 (set_drain initialApp) [] engs).app.num_framebuffers = 0 := by
  have e1 : (run_loop1 initialApp [] engs).app = initialApp := rfl
  have e2 : (run_loop1 initialApp [] engs).src = ([] : List Nat) := rfl
  have e3 : (run_loop1 initialApp [] engs).engs = engs := rfl
  have e4 : (run_loop1 initialApp [] engs).events = ([] : List Event) := rfl
  obtain ⟨u2, hu2, _, _, himp1b, _⟩ :=
    run_loop2_consumed engs (set_drain initialApp) []
  have hz2 : info_count u2 = 0 := by
    unfold info_count
    rw [List.countP_eq_zero]
    intro x hx
    have hxm : x ∈ engs := by
      rw [hu2]
      exact List.mem_append_left _ hx
    simp [hnoinfo x hxm]
  obtain ⟨hp2, hn2⟩ := himp1b hz2
  have hnum : (run_loop2 (set_drain initialApp) [] engs).app.num_framebuffers = 0 :=
    hn2.trans rfl
  have ha2 : alloc_indices (run_loop2 (set_drain initialApp) [] engs).events = [] :=
    alloc_indices_eq_nil_of_no_pool hp2
  refine ⟨?_, rfl, ?_, ?_, hnum⟩
  · rw [mainRun_eq ii [] engs hinit]
  · rw [mainRun_eq ii [] engs hinit]
    rw [e1, e2, e3, e4]
    rw [alloc_indices_append, alloc_indices_append, alloc_indices_append,
      alloc_indices_append, ha2, alloc_indices_shutdown]
    have hinit_alloc : alloc_indices (init_events ii) = [] := by
      rw [init_ret_ok_events ii hinit]
      rfl
    rw [hinit_alloc]
    rfl
  · intro i
    rw [mainRun_eq ii [] engs hinit]
    rw [e1, e2, e3, e4]
    have hc2 : (run_loop2 (set_drain initialApp) [] engs).events.countP
        (is_dealloc_at i) = 0 := by
      have h2 := run_loop2_no_teardown engs (set_drain initialApp) []
      have h3 : (run_loop2 (set_drain initialApp) [] engs).events.countP
          (is_dealloc_at i) ≤
          (run_loop2 (set_drain initialApp) [] engs).events.countP
            is_teardown_event :=
        List.countP_mono_left (fun x _ hx => dealloc_at_imp_teardown i x hx)
      omega
    rw [List.countP_append, List.countP_append, List.countP_append,
      List.countP_append, hc2, shutdown_dealloc_at, init_ret_ok_events ii hinit]
    rw [hnum]
    simp [is_dealloc_at, List.countP_cons]

/-- C10 (witness): the theorem applied to an empty-input run. -/
theorem c10_witness :
    init_ret okInit ≠ Retval.error ∧
    (∀ e ∈ ([eosStep] : List EngineStep),
      e.output_code.initial_info_available = false) ∧
    ((mainRun okInit [] [eosStep]).1 = 0 ∧
    run_loop1 initialApp [] [eosStep] =
      ⟨Retval.eos, initialApp, [], [eosStep], []⟩ ∧
    alloc_indices (mainRun okInit [] [eosStep]).2 = [] ∧
    (∀ i, (mainRun okInit [] [eosStep]).2.countP (is_dealloc_at i) = 0) ∧
    (run_loop2 (set_drain initialApp) [] [eosStep]).app.num_framebuffers = 0) :=
  ⟨by decide, by decide, c10_empty_input_safe okInit [eosStep] (by decide) (by decide)⟩

end DecodeExample
